import Mathlib

/-!
Verification development for the ticket-master cloud sync backend.

This file gives a shallow embedding, in Lean 4, of the parts of the
repository that the frozen claims are about:

* the credential encryption utilities (AES-256-GCM wrapping, hex keys,
  base64 framing) from the encryption utility module;
* the per-workspace Durable Object (data tables, the sync WebSocket
  message handler, change-event computation, broadcast routing, and the
  REST bulk-read surface) from workspace.ts;
* the sandbox session subsystem (credential lookup, session creation,
  heartbeat, terminate, alarm sweep) from workspace.ts;
* the two reconnecting bridge clients: CloudConnection (connection.ts)
  and WorkerBridge (worker-bridge.ts), modelled as explicit state
  machines driven by their event callbacks.

Machine integers are modelled as Nat (all quantities involved are
non-negative timestamps, counters and byte values), byte strings as
List Nat with values below 256, and JSON documents as an inductive
Json type restricted to integer numerals (the code only stores integer
timestamps and counters).
-/

/- ============================================================
   JSON values
   ============================================================ -/

/-- JSON document values as stored and exchanged by the workspace DO.
Numbers are restricted to integers: the code only stores timestamps,
counters and token counts, all integral. -/
inductive Json where
  | null
  | bool (b : Bool)
  | num (n : Int)
  | str (s : String)
  | arr (elems : List Json)
  | obj (fields : List (String × Json))
deriving Repr

mutual

def Json.decEq : (a b : Json) → Decidable (a = b)
  | .null, .null => isTrue rfl
  | .null, .bool _ => isFalse nofun
  | .null, .num _ => isFalse nofun
  | .null, .str _ => isFalse nofun
  | .null, .arr _ => isFalse nofun
  | .null, .obj _ => isFalse nofun
  | .bool _, .null => isFalse nofun
  | .bool a, .bool b =>
    if h : a = b then isTrue (by rw [h]) else isFalse (fun hh => h (Json.bool.inj hh))
  | .bool _, .num _ => isFalse nofun
  | .bool _, .str _ => isFalse nofun
  | .bool _, .arr _ => isFalse nofun
  | .bool _, .obj _ => isFalse nofun
  | .num _, .null => isFalse nofun
  | .num _, .bool _ => isFalse nofun
  | .num a, .num b =>
    if h : a = b then isTrue (by rw [h]) else isFalse (fun hh => h (Json.num.inj hh))
  | .num _, .str _ => isFalse nofun
  | .num _, .arr _ => isFalse nofun
  | .num _, .obj _ => isFalse nofun
  | .str _, .null => isFalse nofun
  | .str _, .bool _ => isFalse nofun
  | .str _, .num _ => isFalse nofun
  | .str a, .str b =>
    if h : a = b then isTrue (by rw [h]) else isFalse (fun hh => h (Json.str.inj hh))
  | .str _, .arr _ => isFalse nofun
  | .str _, .obj _ => isFalse nofun
  | .arr _, .null => isFalse nofun
  | .arr _, .bool _ => isFalse nofun
  | .arr _, .num _ => isFalse nofun
  | .arr _, .str _ => isFalse nofun
  | .arr xs, .arr ys =>
    match Json.decEqList xs ys with
    | isTrue h => isTrue (by rw [h])
    | isFalse h => isFalse (fun hh => h (Json.arr.inj hh))
  | .arr _, .obj _ => isFalse nofun
  | .obj _, .null => isFalse nofun
  | .obj _, .bool _ => isFalse nofun
  | .obj _, .num _ => isFalse nofun
  | .obj _, .str _ => isFalse nofun
  | .obj _, .arr _ => isFalse nofun
  | .obj fs, .obj gs =>
    match Json.decEqFields fs gs with
    | isTrue h => isTrue (by rw [h])
    | isFalse h => isFalse (fun hh => h (Json.obj.inj hh))

def Json.decEqList : (xs ys : List Json) → Decidable (xs = ys)
  | [], [] => isTrue rfl
  | [], _ :: _ => isFalse nofun
  | _ :: _, [] => isFalse nofun
  | x :: xs, y :: ys =>
    match Json.decEq x y with
    | isFalse h => isFalse (by intro hh; injection hh with h1 h2; exact h h1)
    | isTrue h1 =>
      match Json.decEqList xs ys with
      | isTrue h2 => isTrue (by rw [h1, h2])
      | isFalse h2 => isFalse (by intro hh; injection hh with ha hb; exact h2 hb)

def Json.decEqFields : (fs gs : List (String × Json)) → Decidable (fs = gs)
  | [], [] => isTrue rfl
  | [], _ :: _ => isFalse nofun
  | _ :: _, [] => isFalse nofun
  | (k1, v1) :: fs, (k2, v2) :: gs =>
    if hk : k1 = k2 then
      match Json.decEq v1 v2 with
      | isFalse h => isFalse (by intro hh; injection hh with h1 h2; exact h (congrArg Prod.snd h1))
      | isTrue hv =>
        match Json.decEqFields fs gs with
        | isTrue ht => isTrue (by rw [hk, hv, ht])
        | isFalse ht => isFalse (by intro hh; injection hh with h1 h2; exact ht h2)
    else isFalse (by intro hh; injection hh with h1 h2; exact hk (congrArg Prod.fst h1))

end

instance : DecidableEq Json := Json.decEq

instance {ε α : Type} [DecidableEq ε] [DecidableEq α] : DecidableEq (Except ε α) := by
  intro a b
  cases a with
  | error e =>
    cases b with
    | error f => exact if h : e = f then isTrue (by rw [h]) else isFalse (by intro hh; injection hh; contradiction)
    | ok y => exact isFalse nofun
  | ok x =>
    cases b with
    | error f => exact isFalse nofun
    | ok y => exact if h : x = y then isTrue (by rw [h]) else isFalse (by intro hh; injection hh; contradiction)

/-- The field list an object spread `...j` contributes in a JS object
literal: objects contribute their fields, strings and arrays contribute
index-keyed entries, primitives contribute nothing. -/
def jsonSpreadFields : Json → List (String × Json)
  | Json.obj fs => fs
  | Json.str s => s.toList.enum.map (fun p => (toString p.1, Json.str p.2.toString))
  | Json.arr xs => xs.enum.map (fun p => (toString p.1, p.2))
  | _ => []

/-- Assign field k := v in a JS object-literal field list: an existing
key is overwritten in place, a new key is appended (JS property-order
semantics). -/
def setField (fs : List (String × Json)) (k : String) (v : Json) : List (String × Json) :=
  if fs.any (fun p => p.1 = k) then fs.map (fun p => if p.1 = k then (k, v) else p)
  else fs ++ [(k, v)]

/-- Spread-merge `...base` then `...upd` (later fields win, JS semantics). -/
def spreadMerge (base upd : List (String × Json)) : List (String × Json) :=
  upd.foldl (fun acc p => setField acc p.1 p.2) base

/-- Look a field up in a JSON object (none on non-objects). -/
def lookupField (j : Json) (k : String) : Option Json :=
  match j with
  | Json.obj fs => (fs.find? (fun p => p.1 = k)).map (fun p => p.2)
  | _ => none

/- ============================================================
   Association-list tables (SQL rows keyed by primary key)
   ============================================================ -/

/-- SELECT by primary key: first row with the given key. -/
def tblGet {κ ρ : Type} [DecidableEq κ] (rows : List (κ × ρ)) (k : κ) : Option ρ :=
  match rows with
  | [] => none
  | p :: rest => if p.1 = k then some p.2 else tblGet rest k

/-- INSERT OR REPLACE: overwrite the row in place, or append a new row. -/
def tblSet {κ ρ : Type} [DecidableEq κ] (rows : List (κ × ρ)) (k : κ) (v : ρ) : List (κ × ρ) :=
  if rows.any (fun p => p.1 = k) then rows.map (fun p => if p.1 = k then (k, v) else p)
  else rows ++ [(k, v)]

/-- DELETE by primary key. -/
def tblDel {κ ρ : Type} [DecidableEq κ] (rows : List (κ × ρ)) (k : κ) : List (κ × ρ) :=
  rows.filter (fun p => ¬ p.1 = k)

/- ============================================================
   Byte-level utilities of the encryption module
   ============================================================ -/

/-- Value of one hex digit character, if it is one. -/
def hexDigitVal (c : Char) : Option Nat :=
  let k := c.toNat
  if 48 ≤ k ∧ k ≤ 57 then some (k - 48)
  else if 97 ≤ k ∧ k ≤ 102 then some (k - 87)
  else if 65 ≤ k ∧ k ≤ 70 then some (k - 55)
  else none

/-- parseInt(two-char slice, 16) followed by Uint8Array coercion, as in
hexToBytes: both digits valid gives the byte, a valid first digit alone
parses as that digit, otherwise NaN coerces to 0. -/
def hexPairByte (c1 c2 : Char) : Nat :=
  match hexDigitVal c1, hexDigitVal c2 with
  | some d1, some d2 => 16 * d1 + d2
  | some d1, none => d1
  | none, _ => 0

/-- hexToBytes from the encryption module: consume the hex string two
characters at a time; a trailing odd character is dropped (the
Uint8Array length is the truncated half-length). -/
def hexToBytesL : List Char → List Nat
  | [] => []
  | [_] => []
  | c1 :: c2 :: rest => hexPairByte c1 c2 :: hexToBytesL rest

def hexToBytes (hex : String) : List Nat := hexToBytesL hex.toList

/- ---------- base64 (btoa / atob) ---------- -/

/-- Character of one 6-bit group in the standard base64 alphabet. -/
def b64Char (n : Nat) : Char :=
  if n < 26 then Char.ofNat (65 + n)
  else if n < 52 then Char.ofNat (97 + (n - 26))
  else if n < 62 then Char.ofNat (48 + (n - 52))
  else if n = 62 then '+'
  else '/'

/-- Inverse of b64Char on the alphabet; none off it. -/
def b64Val (c : Char) : Option Nat :=
  let k := c.toNat
  if 65 ≤ k ∧ k ≤ 90 then some (k - 65)
  else if 97 ≤ k ∧ k ≤ 122 then some (k - 71)
  else if 48 ≤ k ∧ k ≤ 57 then some (k + 4)
  else if k = 43 then some 62
  else if k = 47 then some 63
  else none

/-- btoa on a byte list (each byte below 256), standard base64 with
padding. -/
def base64EncodeL : List Nat → List Char
  | [] => []
  | [a] => [b64Char (a / 4), b64Char (a % 4 * 16), '=', '=']
  | [a, b] => [b64Char (a / 4), b64Char (a % 4 * 16 + b / 16), b64Char (b % 16 * 4), '=']
  | a :: b :: c :: rest =>
      b64Char (a / 4) :: b64Char (a % 4 * 16 + b / 16) :: b64Char (b % 16 * 4 + c / 64)
        :: b64Char (c % 64) :: base64EncodeL rest

/-- atob: decode 4 characters to 3 bytes, honouring trailing padding;
none on malformed input (atob throws InvalidCharacterError there). -/
def base64DecodeL : List Char → Option (List Nat)
  | [] => some []
  | c1 :: c2 :: c3 :: c4 :: rest =>
    match b64Val c1, b64Val c2 with
    | some v1, some v2 =>
      if c3 = '=' ∧ c4 = '=' ∧ rest = [] then
        some [v1 * 4 + v2 / 16]
      else if c4 = '=' ∧ rest = [] then
        match b64Val c3 with
        | some v3 => some [v1 * 4 + v2 / 16, v2 % 16 * 16 + v3 / 4]
        | none => none
      else
        match b64Val c3, b64Val c4, base64DecodeL rest with
        | some v3, some v4, some bs =>
            some ((v1 * 4 + v2 / 16) :: (v2 % 16 * 16 + v3 / 4) :: (v3 % 4 * 64 + v4) :: bs)
        | _, _, _ => none
    | _, _ => none
  | _ => none

def bytesToBase64 (bytes : List Nat) : String := String.mk (base64EncodeL bytes)

def base64ToBytes (s : String) : Option (List Nat) := base64DecodeL s.toList

/- ============================================================
   Ideal model of the WebCrypto AES-256-GCM primitive
   ============================================================ -/

/-- 4-byte little-endian length header used by the ideal-cipher model. -/
def encLen4 (n : Nat) : List Nat :=
  [n % 256, n / 256 % 256, n / 65536 % 256, n / 16777216 % 256]

/-- Parse a 4-byte little-endian length header. -/
def decLen4 : List Nat → Option (Nat × List Nat)
  | a :: b :: c :: d :: rest => some (a + 256 * b + 65536 * c + 16777216 * d, rest)
  | _ => none

/-- Model of crypto.subtle.encrypt with AES-GCM: an ideal authenticated
cipher. The ciphertext-plus-tag output is modelled as an injective
encoding of (key, iv, plaintext); this reflects the AEAD contract of the
external WebCrypto primitive (tag binds key and iv; decryption under the
same key and iv recovers the plaintext, anything else fails the tag
check). The repository's own framing code (hex keys, iv prefixing,
base64) is modelled concretely around it. -/
def aesGcmSeal (key iv pt : List Nat) : List Nat :=
  encLen4 key.length ++ (key ++ (encLen4 iv.length ++ (iv ++ pt)))

/-- Model of crypto.subtle.decrypt with AES-GCM for the ideal cipher:
succeeds exactly when key and iv match those the ciphertext was sealed
under. -/
def aesGcmOpen (key iv ct : List Nat) : Option (List Nat) :=
  match decLen4 ct with
  | none => none
  | some (klen, r1) =>
    if klen = key.length ∧ r1.take klen = key then
      match decLen4 (r1.drop klen) with
      | none => none
      | some (ivlen, r2) =>
        if ivlen = iv.length ∧ r2.take ivlen = iv then some (r2.drop ivlen)
        else none
    else none

/- ============================================================
   encryptCredential / decryptCredential (encryption module)
   ============================================================ -/

/-- encryptCredential from the encryption module. The plaintext is
represented by its UTF-8 byte sequence (TextEncoder is the identity at
this representation level); the random 12-byte IV is passed explicitly
since randomness is external. Returns the base64 of IV plus
ciphertext-plus-tag, or the key-length error. -/
def encryptCredential (plaintextBytes : List Nat) (keyHex : String) (iv : List Nat) :
    Except String String :=
  let keyBytes := hexToBytes keyHex
  if keyBytes.length ≠ 32 then
    Except.error "Encryption key must be 32 bytes (64 hex characters)"
  else
    Except.ok (bytesToBase64 (iv ++ aesGcmSeal keyBytes iv plaintextBytes))

/-- decryptCredential from the encryption module: checks the key
length, base64-decodes, splits the first 12 bytes off as the IV and
opens the remainder; any failure surfaces as an error (the thrown
exception in the source). The recovered plaintext is returned as its
UTF-8 byte sequence. -/
def decryptCredential (encrypted : String) (keyHex : String) : Except String (List Nat) :=
  let keyBytes := hexToBytes keyHex
  if keyBytes.length ≠ 32 then
    Except.error "Encryption key must be 32 bytes (64 hex characters)"
  else
    match base64ToBytes encrypted with
    | none => Except.error "InvalidCharacterError"
    | some combined =>
      let iv := combined.take 12
      let ct := combined.drop 12
      match aesGcmOpen keyBytes iv ct with
      | none => Except.error "DecryptionError"
      | some pt => Except.ok pt

/- ============================================================
   Workspace Durable Object: tables and state
   ============================================================ -/

/-- sessions table row: header and messages are stored as JSON text and
parsed on read (JSON stringify/parse round-trips are the identity on
the Json model). -/
structure SessionRow where
  header : Json
  messages : Json
  updatedAt : Nat
deriving DecidableEq, Repr

/-- sources table row. -/
structure SourceRow where
  config : Json
  guide : Option Json
  updatedAt : Nat
deriving DecidableEq, Repr

/-- skills table row. -/
structure SkillRow where
  content : String
  metadata : Json
  updatedAt : Nat
deriving DecidableEq, Repr

/-- plans table row, keyed by (session id, file name). -/
structure PlanRow where
  content : String
  updatedAt : Nat
deriving DecidableEq, Repr

/-- The sync-relevant tables of one workspace Durable Object. -/
structure DOState where
  sessions : List (String × SessionRow)
  sources : List (String × SourceRow)
  statusesCfg : Option Json
  labelsCfg : Option Json
  skills : List (String × SkillRow)
  plans : List ((String × String) × PlanRow)
deriving DecidableEq, Repr

def DOState.empty : DOState :=
  { sessions := [], sources := [], statusesCfg := none, labelsCfg := none,
    skills := [], plans := [] }

/- ============================================================
   Sync WebSocket client messages
   ============================================================ -/

/-- The typed command envelopes of the sync protocol, with the
requestId and the fields of the data payload each handler reads. The
`unknown` constructor stands for any unrecognised type tag. -/
inductive WSClientMessage where
  | sessionCreate (requestId : String) (data : Json)
  | sessionSave (requestId : String) (id : String) (header : Json) (messages : Json)
  | sessionDelete (requestId : String) (sessionId : String)
  | sessionUpdateMeta (requestId : String) (sessionId : String) (updates : Json)
  | sessionUpdateSdkId (requestId : String) (sessionId : String) (sdkSessionId : String)
  | sessionClearMessages (requestId : String) (sessionId : String)
  | sourceCreate (requestId : String) (data : Json)
  | sourceSaveConfig (requestId : String) (data : Json)
  | sourceDelete (requestId : String) (sourceSlug : String)
  | sourceSaveGuide (requestId : String) (sourceSlug : String) (guide : Json)
  | statusesSave (requestId : String) (data : Json)
  | labelsSave (requestId : String) (data : Json)
  | skillSave (requestId : String) (slug : String) (content : String) (metadata : Json)
  | skillDelete (requestId : String) (slug : String)
  | planSave (requestId : String) (sessionId fileName content : String)
  | planDelete (requestId : String) (sessionId fileName : String)
  | unknown (requestId : String) (typeTag : String)
deriving DecidableEq, Repr

def WSClientMessage.requestId : WSClientMessage → String
  | .sessionCreate rid _ => rid
  | .sessionSave rid _ _ _ => rid
  | .sessionDelete rid _ => rid
  | .sessionUpdateMeta rid _ _ => rid
  | .sessionUpdateSdkId rid _ _ => rid
  | .sessionClearMessages rid _ => rid
  | .sourceCreate rid _ => rid
  | .sourceSaveConfig rid _ => rid
  | .sourceDelete rid _ => rid
  | .sourceSaveGuide rid _ _ => rid
  | .statusesSave rid _ => rid
  | .labelsSave rid _ => rid
  | .skillSave rid _ _ _ => rid
  | .skillDelete rid _ => rid
  | .planSave rid _ _ _ => rid
  | .planDelete rid _ _ => rid
  | .unknown rid _ => rid

/-- The JSON result value for handlers that return success true. -/
def successJson : Json := Json.obj [("success", Json.bool true)]

/- ============================================================
   handleMessage: the CRUD switch of the Durable Object
   ============================================================ -/

/-- handleMessage from workspace.ts. A thrown exception (not-found
checks, SQL constraint violations) is an error; otherwise the handler
returns its result value and the updated state. now is Date.now(). -/
def handleMessage (st : DOState) (now : Nat) : WSClientMessage → Except String (Json × DOState)
  | .sessionCreate _ data =>
    let header := Json.obj
      (setField (setField (jsonSpreadFields data) "createdAt" (Json.num (Int.ofNat now)))
        "lastUsedAt" (Json.num (Int.ofNat now)))
    match lookupField header "id" with
    | some (Json.str id) =>
      if (tblGet st.sessions id).isSome then
        Except.error "UNIQUE constraint failed: sessions.id"
      else
        Except.ok (header,
          { st with sessions :=
              tblSet st.sessions id { header := header, messages := Json.arr [], updatedAt := now } })
    | _ => Except.error "Invalid session id"
  | .sessionSave _ id header messages =>
    Except.ok (successJson,
      { st with sessions :=
          tblSet st.sessions id { header := header, messages := messages, updatedAt := now } })
  | .sessionDelete _ sid =>
    Except.ok (successJson,
      { st with sessions := tblDel st.sessions sid,
                plans := st.plans.filter (fun p => ¬ p.1.1 = sid) })
  | .sessionUpdateMeta _ sid updates =>
    match tblGet st.sessions sid with
    | none => Except.error ("Session not found: " ++ sid)
    | some row =>
      let header := Json.obj (spreadMerge (jsonSpreadFields row.header) (jsonSpreadFields updates))
      Except.ok (header,
        { st with sessions :=
            st.sessions.map (fun p =>
              if p.1 = sid then (p.1, { p.2 with header := header, updatedAt := now }) else p) })
  | .sessionUpdateSdkId _ sid sdkId =>
    match tblGet st.sessions sid with
    | none => Except.error ("Session not found: " ++ sid)
    | some row =>
      let header := Json.obj (setField (jsonSpreadFields row.header) "sdkSessionId" (Json.str sdkId))
      Except.ok (successJson,
        { st with sessions :=
            st.sessions.map (fun p =>
              if p.1 = sid then (p.1, { p.2 with header := header, updatedAt := now }) else p) })
  | .sessionClearMessages _ sid =>
    Except.ok (successJson,
      { st with sessions :=
          st.sessions.map (fun p =>
            if p.1 = sid then (p.1, { p.2 with messages := Json.arr [], updatedAt := now }) else p) })
  | .sourceCreate _ data =>
    match lookupField data "slug" with
    | some (Json.str slug) =>
      if (tblGet st.sources slug).isSome then
        Except.error "UNIQUE constraint failed: sources.slug"
      else
        Except.ok (data,
          { st with sources :=
              tblSet st.sources slug { config := data, guide := none, updatedAt := now } })
    | _ => Except.error "Invalid source slug"
  | .sourceSaveConfig _ data =>
    match lookupField data "slug" with
    | some (Json.str slug) =>
      let oldGuide := (tblGet st.sources slug).bind (fun r => r.guide)
      Except.ok (successJson,
        { st with sources :=
            tblSet st.sources slug { config := data, guide := oldGuide, updatedAt := now } })
    | _ => Except.error "Invalid source slug"
  | .sourceDelete _ slug =>
    Except.ok (successJson, { st with sources := tblDel st.sources slug })
  | .sourceSaveGuide _ slug guide =>
    Except.ok (successJson,
      { st with sources :=
          st.sources.map (fun p =>
            if p.1 = slug then (p.1, { p.2 with guide := some guide, updatedAt := now }) else p) })
  | .statusesSave _ data =>
    Except.ok (successJson, { st with statusesCfg := some data })
  | .labelsSave _ data =>
    Except.ok (successJson, { st with labelsCfg := some data })
  | .skillSave _ slug content metadata =>
    Except.ok (successJson,
      { st with skills :=
          tblSet st.skills slug { content := content, metadata := metadata, updatedAt := now } })
  | .skillDelete _ slug =>
    Except.ok (successJson, { st with skills := tblDel st.skills slug })
  | .planSave _ sid fname content =>
    Except.ok (successJson,
      { st with plans := tblSet st.plans (sid, fname) { content := content, updatedAt := now } })
  | .planDelete _ sid fname =>
    Except.ok (successJson, { st with plans := tblDel st.plans (sid, fname) })
  | .unknown _ ty =>
    Except.error ("Unknown message type: " ++ ty)

/-- The state effect of webSocketMessage for one message: the new state
on success, the old state when the handler threw. -/
def applyMessage (st : DOState) (now : Nat) (msg : WSClientMessage) : DOState :=
  match handleMessage st now msg with
  | Except.ok (_, st') => st'
  | Except.error _ => st

/- ============================================================
   Change events and broadcast routing
   ============================================================ -/

structure ChangeEvent where
  entity : String
  action : String
  data : Json
deriving DecidableEq, Repr

/-- toChangeEvent from workspace.ts: which payload each message type
broadcasts. Only session:create and session:updateMeta use the
server-computed result; the other cases reuse parts of the client
message data. -/
def toChangeEvent (msg : WSClientMessage) (result : Json) : Option ChangeEvent :=
  match msg with
  | .sessionCreate _ _ => some { entity := "session", action := "created", data := result }
  | .sessionSave _ _ header _ => some { entity := "session", action := "updated", data := header }
  | .sessionUpdateMeta _ _ _ => some { entity := "session", action := "updated", data := result }
  | .sessionUpdateSdkId _ sid sdkId =>
    some { entity := "session", action := "updated",
           data := Json.obj [("sessionId", Json.str sid), ("sdkSessionId", Json.str sdkId)] }
  | .sessionClearMessages _ sid =>
    some { entity := "session", action := "updated", data := Json.obj [("sessionId", Json.str sid)] }
  | .sessionDelete _ sid =>
    some { entity := "session", action := "deleted", data := Json.obj [("sessionId", Json.str sid)] }
  | .sourceCreate _ data => some { entity := "source", action := "created", data := data }
  | .sourceSaveConfig _ data => some { entity := "source", action := "updated", data := data }
  | .sourceSaveGuide _ slug guide =>
    some { entity := "source", action := "updated",
           data := Json.obj [("sourceSlug", Json.str slug), ("guide", guide)] }
  | .sourceDelete _ slug =>
    some { entity := "source", action := "deleted", data := Json.obj [("sourceSlug", Json.str slug)] }
  | .statusesSave _ data => some { entity := "statuses", action := "updated", data := data }
  | .labelsSave _ data => some { entity := "labels", action := "updated", data := data }
  | .skillSave _ slug content metadata =>
    some { entity := "skill", action := "updated",
           data := Json.obj [("slug", Json.str slug), ("content", Json.str content),
                             ("metadata", metadata)] }
  | .skillDelete _ slug =>
    some { entity := "skill", action := "deleted", data := Json.obj [("slug", Json.str slug)] }
  | .planSave _ sid fname content =>
    some { entity := "plan", action := "updated",
           data := Json.obj [("sessionId", Json.str sid), ("fileName", Json.str fname),
                             ("content", Json.str content)] }
  | .planDelete _ sid fname =>
    some { entity := "plan", action := "deleted",
           data := Json.obj [("sessionId", Json.str sid), ("fileName", Json.str fname)] }
  | .unknown _ _ => none

/-- A hibernated WebSocket connection: its identity and accept tags.
Sync connections are accepted with no tags; sandbox connections carry
a tag list starting with the string sandbox. -/
structure Conn where
  connId : Nat
  tags : List String
deriving DecidableEq, Repr

/-- The skip test of broadcast: tags.length greater than zero and
tags[0] equal to sandbox. -/
def Conn.isSandbox (c : Conn) : Bool :=
  match c.tags with
  | t :: _ => t = "sandbox"
  | [] => false

/-- Messages the server sends over a sync WebSocket. -/
inductive WSServerMessage where
  | response (requestId : String) (data : Option Json) (error : Option String)
  | broadcastEvt (event : ChangeEvent)
deriving DecidableEq, Repr

/-- webSocketMessage from workspace.ts for a sync message: handle the
message, send exactly one response envelope to the sender (result or
error), and on success broadcast the change event to every other
connection that is not sandbox-tagged. Returns the ordered send list
(connection id, message) and the resulting state. -/
def syncWebSocketMessage (conns : List Conn) (sender : Nat) (st : DOState) (now : Nat)
    (msg : WSClientMessage) : List (Nat × WSServerMessage) × DOState :=
  match handleMessage st now msg with
  | Except.error e => ([(sender, WSServerMessage.response msg.requestId none (some e))], st)
  | Except.ok (result, st') =>
    let resp := (sender, WSServerMessage.response msg.requestId (some result) none)
    match toChangeEvent msg result with
    | none => ([resp], st')
    | some ev =>
      (resp :: conns.filterMap (fun c =>
          if c.connId ≠ sender ∧ c.isSandbox = false then
            some (c.connId, WSServerMessage.broadcastEvt ev)
          else none), st')

/- ============================================================
   REST bulk-read surface
   ============================================================ -/

/-- GET /sessions/:id — spread the parsed header and attach the parsed
message list (the JS object literal with a messages property). -/
def restGetSession (st : DOState) (id : String) : Option Json :=
  (tblGet st.sessions id).map (fun r =>
    Json.obj (setField (jsonSpreadFields r.header) "messages" r.messages))

/-- GET /sources/:slug — config plus guide (null when absent). -/
def restGetSource (st : DOState) (slug : String) : Option Json :=
  (tblGet st.sources slug).map (fun r =>
    Json.obj [("config", r.config), ("guide", r.guide.getD Json.null)])

/-- GET /statuses — the stored config, or the well-known default. -/
def restGetStatuses (st : DOState) : Json :=
  st.statusesCfg.getD
    (Json.obj [("version", Json.num 1), ("statuses", Json.arr []),
               ("defaultStatusId", Json.str "todo")])

/-- GET /labels — the stored config, or the well-known default. -/
def restGetLabels (st : DOState) : Json :=
  st.labelsCfg.getD (Json.obj [("version", Json.num 1), ("labels", Json.arr [])])

/-- GET /sessions/:id/plans/:fileName — the plan markdown, 404 when
absent. -/
def restGetPlan (st : DOState) (sid fname : String) : Option String :=
  (tblGet st.plans (sid, fname)).map (fun r => r.content)

/- ============================================================
   Sandbox session subsystem
   ============================================================ -/

/-- SandboxStatus values of the sandbox_sessions.status column. -/
inductive SandboxStatus where
  | provisioning
  | cloning
  | ready
  | idle
  | expired
deriving DecidableEq, Repr

/-- Position of a status in the forward lifecycle order
provisioning, cloning, ready, idle, expired. -/
def SandboxStatus.rank : SandboxStatus → Nat
  | .provisioning => 0
  | .cloning => 1
  | .ready => 2
  | .idle => 3
  | .expired => 4

/-- sandbox_sessions table row. -/
structure SandboxRow where
  repoKey : String
  sandboxId : String
  branch : String
  status : SandboxStatus
  createdAt : Nat
  lastActivityAt : Nat
  expiresAt : Nat
deriving DecidableEq, Repr

/-- projects table row. -/
structure ProjectRow where
  repoUrl : String
  defaultBranch : String
  addedAt : Nat
  githubCredential : Option String
deriving DecidableEq, Repr

/-- The sandbox-relevant state of the Durable Object: the projects and
sandbox_sessions tables, the log of host destroy calls issued (one
entry per getSandbox(...).destroy() invocation, recording the sandbox
id), and the pending storage alarm. -/
structure SandboxState where
  projects : List (String × ProjectRow)
  sbRows : List (String × SandboxRow)
  destroyLog : List String
  alarmAt : Option Nat
deriving DecidableEq, Repr

/-- Update the row with the given session id in place (the SQL UPDATE
... WHERE session_id = ? shape used throughout the sandbox code). -/
def markRows (rows : List (String × SandboxRow)) (sid : String)
    (f : SandboxRow → SandboxRow) : List (String × SandboxRow) :=
  rows.map (fun p => if p.1 = sid then (p.1, f p.2) else p)

/-- getDecryptedCredential from workspace.ts: none when the project row
is absent, has no stored credential, or decryption fails; the decrypted
credential bytes otherwise. (The JSON.parse of the credential document
is external to the claims and elided.) -/
def getDecryptedCredential (st : SandboxState) (repoKey encKey : String) : Option (List Nat) :=
  (tblGet st.projects repoKey).bind (fun p =>
    p.githubCredential.bind (fun enc => (decryptCredential enc encKey).toOption))

/-- createSandboxSession from workspace.ts. The host interactions are
parameterised by outcome flags: cloneOk for gitCheckout, checkoutOk for
the extra branch checkout. A missing or undecryptable credential fails
fast with the structured error and leaves the state untouched; the row
is inserted as provisioning, moved to cloning, and on any host failure
set to expired with the error returned; on success the row is ready and
the cleanup alarm is scheduled. The fresh UUID sessionId is passed in;
a colliding id makes the plain INSERT throw. -/
def createSandboxSession (st : SandboxState) (encKey repoKey branch sessionId : String)
    (now : Nat) (cloneOk checkoutOk : Bool) : Except String (String × String) × SandboxState :=
  match getDecryptedCredential st repoKey encKey with
  | none => (Except.error "No GitHub credentials for this repo", st)
  | some _ =>
    let sandboxId := String.mk (sessionId.toList.take 8)
    let expiresAt := now + 30 * 60 * 1000
    if (tblGet st.sbRows sessionId).isSome then
      (Except.error "UNIQUE constraint failed: sandbox_sessions.session_id", st)
    else
      let row : SandboxRow :=
        { repoKey := repoKey, sandboxId := sandboxId, branch := branch,
          status := SandboxStatus.provisioning, createdAt := now,
          lastActivityAt := now, expiresAt := expiresAt }
      let rows1 := tblSet st.sbRows sessionId row
      let rows2 := markRows rows1 sessionId (fun r => { r with status := SandboxStatus.cloning })
      let rowsExpired :=
        markRows rows2 sessionId (fun r => { r with status := SandboxStatus.expired })
      let rowsReady :=
        markRows rows2 sessionId (fun r => { r with status := SandboxStatus.ready })
      if cloneOk = false then
        (Except.error "clone failed", { st with sbRows := rowsExpired })
      else if (¬ branch = "" ∧ ¬ branch = "main" ∧ ¬ branch = "master") ∧ checkoutOk = false then
        (Except.error "checkout failed", { st with sbRows := rowsExpired })
      else
        (Except.ok (sessionId, sandboxId),
         { st with sbRows := rowsReady, alarmAt := some (now + 60000) })

/-- sandboxHeartbeat from workspace.ts: a single unconditional UPDATE
that refreshes the activity timestamps and sets status to ready,
whatever the previous status was. -/
def sandboxHeartbeat (st : SandboxState) (sessionId : String) (now : Nat) : SandboxState :=
  { st with sbRows :=
      markRows st.sbRows sessionId (fun r =>
        { r with lastActivityAt := now, expiresAt := now + 30 * 60 * 1000,
                 status := SandboxStatus.ready }) }

/-- terminateSandboxSession from workspace.ts: look the row up, issue a
best-effort host destroy when it has a sandbox id (no status check),
then delete the row. -/
def terminateSandboxSession (st : SandboxState) (sessionId : String) : SandboxState :=
  match tblGet st.sbRows sessionId with
  | none => st
  | some row =>
    { st with
        destroyLog := st.destroyLog ++ (if row.sandboxId = "" then [] else [row.sandboxId]),
        sbRows := tblDel st.sbRows sessionId }

/-- The per-row effect of one sweep pass: a non-expired row past its
expiry is flagged expired; every other row is untouched. -/
def expireStale (now : Nat) (r : SandboxRow) : SandboxRow :=
  if r.expiresAt < now ∧ ¬ r.status = SandboxStatus.expired then
    { r with status := SandboxStatus.expired }
  else r

/-- alarm from workspace.ts: destroy and flag expired every non-expired
row past its expiry, hard-delete rows flagged expired whose expiry lies
more than five minutes in the past, and reschedule only while a
non-expired row remains. -/
def alarmSweep (st : SandboxState) (now : Nat) : SandboxState :=
  let destroyed := st.sbRows.filterMap (fun p =>
    if p.2.expiresAt < now ∧ ¬ p.2.status = SandboxStatus.expired ∧ ¬ p.2.sandboxId = "" then
      some p.2.sandboxId
    else none)
  let marked := st.sbRows.map (fun p => (p.1, expireStale now p.2))
  let cleaned := marked.filter (fun p =>
    ¬ (p.2.status = SandboxStatus.expired ∧ p.2.expiresAt < now - 5 * 60 * 1000))
  { st with
      sbRows := cleaned,
      destroyLog := st.destroyLog ++ destroyed,
      alarmAt :=
        if cleaned.any (fun p => ¬ p.2.status = SandboxStatus.expired) then some (now + 60000)
        else none }

/-- The operations that can touch a sandbox session row. wsMessage
stands for any sandbox WebSocket message, whose handler invokes
sandboxHeartbeat before dispatching. -/
inductive SbOp where
  | create (repoKey branch sessionId : String) (now : Nat) (cloneOk checkoutOk : Bool)
  | heartbeat (sessionId : String) (now : Nat)
  | wsMessage (sessionId : String) (now : Nat)
  | terminate (sessionId : String)
  | alarmTick (now : Nat)
deriving DecidableEq, Repr

/-- Whether an operation routes through sandboxHeartbeat. -/
def SbOp.isHeartbeat : SbOp → Bool
  | .heartbeat _ _ => true
  | .wsMessage _ _ => true
  | _ => false

/-- One step of the sandbox subsystem. -/
def sbStep (encKey : String) (st : SandboxState) : SbOp → SandboxState
  | .create rk b sid now c k => (createSandboxSession st encKey rk b sid now c k).2
  | .heartbeat sid now => sandboxHeartbeat st sid now
  | .wsMessage sid now => sandboxHeartbeat st sid now
  | .terminate sid => terminateSandboxSession st sid
  | .alarmTick now => alarmSweep st now

/-- A 64-hex-character key used by the concrete instances below. -/
def sampleKeyHex : String :=
  "0000000000000000000000000000000000000000000000000000000000000000"

/-- A credential encrypted under sampleKeyHex. -/
def sampleEncCred : String :=
  (encryptCredential [103, 104] sampleKeyHex [0, 0, 0, 0, 0, 0, 0, 0, 0, 0, 0, 0]).toOption.getD ""

/-- A workspace state holding one project with a stored, decryptable
credential and no sandbox sessions. -/
def sampleSbState : SandboxState :=
  { projects := [("o/r",
      { repoUrl := "https://github.com/o/r.git", defaultBranch := "main", addedAt := 0,
        githubCredential := some sampleEncCred })],
    sbRows := [], destroyLog := [], alarmAt := none }

/- ============================================================
   CloudConnection (connection.ts) as a state machine
   ============================================================ -/

inductive CCConnState where
  | disconnected
  | connecting
  | connected
  | errorState
deriving DecidableEq, Repr

/-- The observable state of one CloudConnection: its connection state,
backoff delay, pending reconnect timer (carrying the scheduled delay),
the shouldReconnect flag, a counter of WebSocket constructor calls, and
whether the attempt in flight was started by the reconnect timer
callback (whose catch block performs the doubling). -/
structure CCState where
  connState : CCConnState
  reconnectDelay : Nat
  reconnectTimer : Option Nat
  shouldReconnect : Bool
  socketsOpened : Nat
  attemptFromTimer : Bool
deriving DecidableEq, Repr

def ccInit : CCState :=
  { connState := CCConnState.disconnected, reconnectDelay := 1000, reconnectTimer := none,
    shouldReconnect := true, socketsOpened := 0, attemptFromTimer := false }

/-- doConnect: set state connecting and construct a new WebSocket,
unconditionally. -/
def ccDoConnect (s : CCState) (fromTimer : Bool) : CCState :=
  { s with connState := CCConnState.connecting, socketsOpened := s.socketsOpened + 1,
           attemptFromTimer := fromTimer }

/-- connect(): set shouldReconnect and run doConnect — there is no
guard on the current state. -/
def ccConnect (s : CCState) : CCState :=
  ccDoConnect { s with shouldReconnect := true } false

/-- scheduleReconnect: no-op unless shouldReconnect holds and no timer
is pending; otherwise arm the timer with the current delay. -/
def ccScheduleReconnect (s : CCState) : CCState :=
  if s.shouldReconnect = false then s
  else if s.reconnectTimer.isSome then s
  else { s with reconnectTimer := some s.reconnectDelay }

/-- ws.onopen: record the socket, reset the delay to 1s, become
connected. -/
def ccOpen (s : CCState) : CCState :=
  { s with reconnectDelay := 1000, connState := CCConnState.connected }

/-- ws.onerror: while the state is still connecting, record the error
state. On a failed attempt the error event fires before the close
event, as the handler's own comment (onclose will fire after onerror)
notes. -/
def ccErrorWhileConnecting (s : CCState) : CCState :=
  if s.connState = CCConnState.connecting then { s with connState := CCConnState.errorState }
  else s

/-- ws.onclose: drop the socket; the doConnect promise is rejected only
if the state is still connecting at this point; then move to
disconnected and schedule a reconnect with the current delay. Only
when the promise was rejected here does the reconnect timer callback's
catch run afterwards (as a microtask), doubling the delay capped at
30s and calling scheduleReconnect again — and only for timer-initiated
attempts, since the initial connect() call has no such catch. Because
onerror has already moved a failing attempt's state to error, the
reject guard is false on the ordinary failure path and the doubling
catch never runs there. -/
def ccOnClose (s : CCState) : CCState :=
  let rejected := s.connState = CCConnState.connecting
  let s1 := ccScheduleReconnect { s with connState := CCConnState.disconnected }
  if rejected ∧ s.attemptFromTimer then
    ccScheduleReconnect { s1 with reconnectDelay := min (s1.reconnectDelay * 2) 30000 }
  else s1

/-- One failed connection attempt, with the events in the order they
actually arrive: onerror first, then onclose. -/
def ccFailedAttempt (s : CCState) : CCState :=
  ccOnClose (ccErrorWhileConnecting s)

/-- Reconnect timer fires: clear the timer and run doConnect as a
timer-initiated attempt. -/
def ccTimerFire (s : CCState) : CCState :=
  match s.reconnectTimer with
  | none => s
  | some _ => ccDoConnect { s with reconnectTimer := none } true

/-- disconnect(): suppress reconnection, clear the timer, drop the
socket. -/
def ccDisconnect (s : CCState) : CCState :=
  { s with shouldReconnect := false, reconnectTimer := none,
           connState := CCConnState.disconnected }

/-- State after the nth consecutive connection failure: the first
attempt comes from connect(), each later one from the reconnect timer. -/
def ccAfterFail : Nat → CCState
  | 0 => ccInit
  | 1 => ccFailedAttempt (ccConnect ccInit)
  | n + 2 => ccFailedAttempt (ccTimerFire (ccAfterFail (n + 1)))

/-- The reconnect delay scheduled right after the nth failure. -/
def ccScheduledDelay (n : Nat) : Option Nat := (ccAfterFail n).reconnectTimer

/- ============================================================
   WorkerBridge (worker-bridge.ts) as a state machine
   ============================================================ -/

inductive WBStatus where
  | disconnected
  | connecting
  | connected
  | errorState
deriving DecidableEq, Repr

/-- The observable state of one WorkerBridge. -/
structure WBState where
  status : WBStatus
  stopped : Bool
  timer : Option Nat
  delay : Nat
  wsLive : Bool
  opened : Nat
  hasConfig : Bool
  pingOn : Bool
deriving DecidableEq, Repr

def wbInit : WBState :=
  { status := WBStatus.disconnected, stopped := false, timer := none, delay := 1000,
    wsLive := false, opened := 0, hasConfig := false, pingOn := false }

/-- scheduleReconnect: return immediately when stopped or a timer is
already pending; otherwise arm the timer with the current delay, then
double the delay capped at 30s. -/
def wbScheduleReconnect (s : WBState) : WBState :=
  if s.stopped ∨ s.timer.isSome then s
  else { s with timer := some s.delay, delay := min (s.delay * 2) 30000 }

/-- cleanup: stop the ping timer, clear the reconnect timer, close and
drop the socket. -/
def wbCleanup (s : WBState) : WBState :=
  { s with pingOn := false, timer := none, wsLive := false }

/-- connect(): return immediately without config or when stopped;
otherwise cleanup, set status connecting and construct the WebSocket
(ctorOk false models the constructor throwing, which sets status error
and schedules a reconnect). -/
def wbConnect (s : WBState) (ctorOk : Bool) : WBState :=
  if s.hasConfig = false ∨ s.stopped then s
  else if ctorOk then
    { wbCleanup s with status := WBStatus.connecting, wsLive := true, opened := s.opened + 1 }
  else
    wbScheduleReconnect { wbCleanup s with status := WBStatus.errorState }

/-- The externally triggered events of a WorkerBridge. -/
inductive WBEvent where
  | startEvt (ctorOk : Bool)
  | stopEvt
  | restartEvt (ctorOk : Bool)
  | openEvt
  | closeEvt
  | errorEvt
  | msgAuthOk
  | msgAuthError
  | msgAction
  | msgQuery
  | msgPong
  | timerFire (ctorOk : Bool)
deriving DecidableEq, Repr

/-- One event step of the WorkerBridge. -/
def wbStep (s : WBState) : WBEvent → WBState
  | .startEvt ok => wbConnect { s with stopped := false, hasConfig := true, delay := 1000 } ok
  | .stopEvt => { wbCleanup s with stopped := true, status := WBStatus.disconnected }
  | .restartEvt ok =>
    wbConnect { wbCleanup s with stopped := false, hasConfig := true, delay := 1000 } ok
  | .openEvt => { s with pingOn := true }
  | .closeEvt =>
    let s1 := { s with pingOn := false, wsLive := false }
    if s1.stopped then s1
    else wbScheduleReconnect { s1 with status := WBStatus.disconnected }
  | .errorEvt => { s with status := WBStatus.errorState }
  | .msgAuthOk => { s with status := WBStatus.connected, delay := 1000 }
  | .msgAuthError => { s with status := WBStatus.errorState, stopped := true }
  | .msgAction => s
  | .msgQuery => s
  | .msgPong => s
  | .timerFire ok =>
    match s.timer with
    | none => s
    | some _ => wbConnect { s with timer := none } ok

/-- Run a sequence of events. -/
def wbRun (s : WBState) : List WBEvent → WBState
  | [] => s
  | e :: es => wbRun (wbStep s e) es

/-- Whether an event is a start() or restart() call. -/
def WBEvent.isStart : WBEvent → Bool
  | .startEvt _ => true
  | .restartEvt _ => true
  | _ => false

/-- State after the nth consecutive connection failure of a started
WorkerBridge: the first attempt comes from start(), each later one
from the reconnect timer. -/
def wbAfterFail : Nat → WBState
  | 0 => wbStep wbInit (WBEvent.startEvt true)
  | 1 => wbStep (wbAfterFail 0) WBEvent.closeEvt
  | n + 2 => wbStep (wbStep (wbAfterFail (n + 1)) (WBEvent.timerFire true)) WBEvent.closeEvt

/-- The reconnect delay scheduled right after the nth failure. -/
def wbScheduledDelay (n : Nat) : Option Nat := (wbAfterFail n).timer

/- ============================================================
   Helper lemmas: base64, hex and the ideal cipher
   ============================================================ -/

theorem b64Val_b64Char : ∀ n, n < 64 → b64Val (b64Char n) = some n := by decide

theorem b64Char_ne_pad : ∀ n, n < 64 → ¬ b64Char n = '=' := by decide

theorem base64_roundtrip (bs : List Nat) (h : ∀ x ∈ bs, x < 256) :
    base64DecodeL (base64EncodeL bs) = some bs := by
  induction bs using base64EncodeL.induct with
  | case1 =>
    simp [base64EncodeL, base64DecodeL]
  | case2 a =>
    have ha : a < 256 := h a (by simp)
    have h1 : a / 4 < 64 := by omega
    have h2 : a % 4 * 16 < 64 := by omega
    simp only [base64EncodeL, base64DecodeL, b64Val_b64Char _ h1, b64Val_b64Char _ h2]
    simp
    omega
  | case3 a b =>
    have ha : a < 256 := h a (by simp)
    have hb : b < 256 := h b (by simp)
    have h1 : a / 4 < 64 := by omega
    have h2 : a % 4 * 16 + b / 16 < 64 := by omega
    have h3 : b % 16 * 4 < 64 := by omega
    simp only [base64EncodeL, base64DecodeL, b64Val_b64Char _ h1, b64Val_b64Char _ h2,
      b64Val_b64Char _ h3]
    rw [if_neg (by simp [b64Char_ne_pad _ h3])]
    simp
    constructor
    · omega
    · omega
  | case4 a b c rest ih =>
    have ha : a < 256 := h a (by simp)
    have hb : b < 256 := h b (by simp)
    have hc : c < 256 := h c (by simp)
    have hrest : ∀ x ∈ rest, x < 256 := fun x hx => h x (by simp [hx])
    have h1 : a / 4 < 64 := by omega
    have h2 : a % 4 * 16 + b / 16 < 64 := by omega
    have h3 : b % 16 * 4 + c / 64 < 64 := by omega
    have h4 : c % 64 < 64 := by omega
    simp only [base64EncodeL, base64DecodeL, b64Val_b64Char _ h1, b64Val_b64Char _ h2,
      b64Val_b64Char _ h3, b64Val_b64Char _ h4, ih hrest]
    rw [if_neg (by simp [b64Char_ne_pad _ h3]), if_neg (by simp [b64Char_ne_pad _ h4])]
    simp
    refine ⟨by omega, by omega, by omega⟩

theorem hexDigitVal_lt (c : Char) (d : Nat) (h : hexDigitVal c = some d) : d < 16 := by
  unfold hexDigitVal at h
  simp only [] at h
  repeat' split at h
  · injection h with h; omega
  · injection h with h; omega
  · injection h with h; omega
  · exact absurd h (by simp)

theorem hexPairByte_lt (c1 c2 : Char) : hexPairByte c1 c2 < 256 := by
  unfold hexPairByte
  cases h1 : hexDigitVal c1 with
  | none => cases h2 : hexDigitVal c2 <;> norm_num
  | some d1 =>
    have hd1 := hexDigitVal_lt c1 d1 h1
    cases h2 : hexDigitVal c2 with
    | none => simp; omega
    | some d2 =>
      have hd2 := hexDigitVal_lt c2 d2 h2
      simp
      omega

theorem hexToBytesL_lt (cs : List Char) : ∀ x ∈ hexToBytesL cs, x < 256 := by
  induction cs using hexToBytesL.induct with
  | case1 =>
    intro x hx
    simp [hexToBytesL] at hx
  | case2 c =>
    intro x hx
    simp [hexToBytesL] at hx
  | case3 c1 c2 rest ih =>
    intro x hx
    simp only [hexToBytesL, List.mem_cons] at hx
    rcases hx with h | h
    · subst h; exact hexPairByte_lt c1 c2
    · exact ih x h

theorem decLen4_encLen4 (n : Nat) (hn : n < 4294967296) (rest : List Nat) :
    decLen4 (encLen4 n ++ rest) = some (n, rest) := by
  simp only [encLen4, List.cons_append, List.nil_append, decLen4]
  congr 1
  congr 1
  omega

theorem encLen4_mem_lt (n : Nat) : ∀ x ∈ encLen4 n, x < 256 := by
  intro x hx
  simp only [encLen4, List.mem_cons, List.not_mem_nil, or_false] at hx
  rcases hx with h | h | h | h <;> subst h <;> omega

theorem aesGcmOpen_seal (key iv pt : List Nat) (hk : key.length < 4294967296)
    (hiv : iv.length < 4294967296) :
    aesGcmOpen key iv (aesGcmSeal key iv pt) = some pt := by
  unfold aesGcmSeal aesGcmOpen
  simp only [decLen4_encLen4 _ hk]
  simp only [List.take_left, List.drop_left, and_self, if_true, eq_self_iff_true, true_and,
    and_true, if_pos]
  simp only [decLen4_encLen4 _ hiv]
  simp only [List.take_left, List.drop_left, and_self, if_true, eq_self_iff_true, true_and,
    and_true, if_pos]

theorem aesGcmOpen_wrong_key (key key' iv pt : List Nat) (hk : key.length < 4294967296)
    (hne : key' ≠ key) :
    aesGcmOpen key' iv (aesGcmSeal key iv pt) = none := by
  unfold aesGcmSeal aesGcmOpen
  simp only [decLen4_encLen4 _ hk]
  simp only [List.take_left]
  rw [if_neg]
  intro hcon
  exact hne hcon.2.symm 

theorem base64ToBytes_bytesToBase64 (bs : List Nat) (h : ∀ x ∈ bs, x < 256) :
    base64ToBytes (bytesToBase64 bs) = some bs := by
  show base64DecodeL (String.mk (base64EncodeL bs)).toList = some bs
  have : (String.mk (base64EncodeL bs)).toList = base64EncodeL bs := rfl
  rw [this, base64_roundtrip bs h]

theorem aesGcmSeal_mem_lt (key iv pt : List Nat) (hkey : ∀ x ∈ key, x < 256)
    (hiv : ∀ x ∈ iv, x < 256) (hpt : ∀ x ∈ pt, x < 256) :
    ∀ x ∈ aesGcmSeal key iv pt, x < 256 := by
  intro x hx
  simp only [aesGcmSeal, List.mem_append] at hx
  rcases hx with h | h | h | h | h
  · exact encLen4_mem_lt _ x h
  · exact hkey x h
  · exact encLen4_mem_lt _ x h
  · exact hiv x h
  · exact hpt x h

/-- C3: for every plaintext (as UTF-8 bytes), 12-byte IV and hex key
parsing to 32 bytes, decryptCredential inverts encryptCredential under
the same key; and under any other 32-byte key the decryption fails with
the decryption error and returns no plaintext. The AES-GCM primitive is
the ideal-cipher model aesGcmSeal / aesGcmOpen. -/
theorem creds_roundtrip_and_wrong_key_fails :
    (∀ (pt iv : List Nat) (keyHex : String),
        (∀ x ∈ pt, x < 256) → (∀ x ∈ iv, x < 256) → iv.length = 12 →
        (hexToBytes keyHex).length = 32 →
        ∃ enc, encryptCredential pt keyHex iv = Except.ok enc ∧
          decryptCredential enc keyHex = Except.ok pt) ∧
    (∀ (pt iv : List Nat) (keyHex keyHex' : String),
        (∀ x ∈ pt, x < 256) → (∀ x ∈ iv, x < 256) → iv.length = 12 →
        (hexToBytes keyHex).length = 32 → (hexToBytes keyHex').length = 32 →
        hexToBytes keyHex' ≠ hexToBytes keyHex →
        ∃ enc, encryptCredential pt keyHex iv = Except.ok enc ∧
          decryptCredential enc keyHex' = Except.error "DecryptionError") := by
  have hmem : ∀ (pt iv : List Nat) (keyHex : String), (∀ x ∈ pt, x < 256) →
      (∀ x ∈ iv, x < 256) →
      ∀ x ∈ iv ++ aesGcmSeal (hexToBytes keyHex) iv pt, x < 256 := by
    intro pt iv keyHex hpt hiv x hx
    rcases List.mem_append.mp hx with h | h
    · exact hiv x h
    · exact aesGcmSeal_mem_lt _ _ _ (fun y hy => hexToBytesL_lt _ y hy) hiv hpt x h
  constructor
  · intro pt iv keyHex hpt hiv hivlen hklen
    refine ⟨bytesToBase64 (iv ++ aesGcmSeal (hexToBytes keyHex) iv pt), ?_, ?_⟩
    · unfold encryptCredential
      rw [if_neg (by omega)]
    · unfold decryptCredential
      rw [if_neg (by omega)]
      simp only [base64ToBytes_bytesToBase64 _ (hmem pt iv keyHex hpt hiv)]
      rw [show (12 : Nat) = iv.length from hivlen.symm]
      rw [List.take_left, List.drop_left]
      simp only [aesGcmOpen_seal _ _ _ (by omega : (hexToBytes keyHex).length < 4294967296)
        (by omega : iv.length < 4294967296)]
  · intro pt iv keyHex keyHex' hpt hiv hivlen hklen hklen' hne
    refine ⟨bytesToBase64 (iv ++ aesGcmSeal (hexToBytes keyHex) iv pt), ?_, ?_⟩
    · unfold encryptCredential
      rw [if_neg (by omega)]
    · unfold decryptCredential
      rw [if_neg (by omega)]
      simp only [base64ToBytes_bytesToBase64 _ (hmem pt iv keyHex hpt hiv)]
      rw [show (12 : Nat) = iv.length from hivlen.symm]
      rw [List.take_left, List.drop_left]
      simp only [aesGcmOpen_wrong_key _ _ _ _
        (by omega : (hexToBytes keyHex).length < 4294967296) hne]

/-- Witness for C3 at a concrete plaintext, IV and key pair. -/
theorem creds_roundtrip_and_wrong_key_fails_witness :
    (∃ enc,
        encryptCredential [104, 105]
          "0000000000000000000000000000000000000000000000000000000000000000"
          [0, 1, 2, 3, 4, 5, 6, 7, 8, 9, 10, 11] = Except.ok enc ∧
        decryptCredential enc
          "0000000000000000000000000000000000000000000000000000000000000000" =
          Except.ok [104, 105]) ∧
    (∃ enc,
        encryptCredential [104, 105]
          "0000000000000000000000000000000000000000000000000000000000000000"
          [0, 1, 2, 3, 4, 5, 6, 7, 8, 9, 10, 11] = Except.ok enc ∧
        decryptCredential enc
          "0100000000000000000000000000000000000000000000000000000000000000" =
          Except.error "DecryptionError") :=
  ⟨creds_roundtrip_and_wrong_key_fails.1 _ _ _ (by decide) (by decide) (by decide) (by decide),
   creds_roundtrip_and_wrong_key_fails.2 _ _ _ _ (by decide) (by decide) (by decide) (by decide)
     (by decide) (by decide)⟩

/- ============================================================
   Helper lemmas: association-list tables
   ============================================================ -/

theorem tblGet_nil {κ ρ : Type} [DecidableEq κ] (k : κ) :
    tblGet ([] : List (κ × ρ)) k = none := rfl

theorem tblGet_cons {κ ρ : Type} [DecidableEq κ] (p : κ × ρ) (rest : List (κ × ρ)) (k : κ) :
    tblGet (p :: rest) k = if p.1 = k then some p.2 else tblGet rest k := rfl

theorem tblGet_eq_none_iff {κ ρ : Type} [DecidableEq κ] (l : List (κ × ρ)) (k : κ) :
    tblGet l k = none ↔ ∀ p ∈ l, ¬ p.1 = k := by
  induction l with
  | nil => simp [tblGet_nil]
  | cons p rest ih =>
    rw [tblGet_cons]
    by_cases hp : p.1 = k
    · simp [hp]
    · simp [hp, ih]

theorem tblGet_map_set_self {κ ρ : Type} [DecidableEq κ] (l : List (κ × ρ)) (k : κ) (v : ρ) :
    tblGet (l.map (fun p => if p.1 = k then (k, v) else p)) k
      = (tblGet l k).map (fun _ => v) := by
  induction l with
  | nil => simp [tblGet_nil]
  | cons p rest ih =>
    by_cases hp : p.1 = k
    · simp [tblGet_cons, hp]
    · simp only [List.map_cons, if_neg hp, tblGet_cons, if_neg hp]
      exact ih

theorem tblGet_map_set_ne {κ ρ : Type} [DecidableEq κ] (l : List (κ × ρ)) (k k' : κ) (v : ρ)
    (h : ¬ k' = k) :
    tblGet (l.map (fun p => if p.1 = k then (k, v) else p)) k' = tblGet l k' := by
  induction l with
  | nil => simp
  | cons p rest ih =>
    by_cases hp : p.1 = k
    · simp only [List.map_cons, if_pos hp, tblGet_cons]
      rw [if_neg (fun hh : k = k' => h hh.symm), if_neg (fun hh : p.1 = k' => h (hp ▸ hh).symm)]
      exact ih
    · simp only [List.map_cons, if_neg hp, tblGet_cons]
      by_cases hpk : p.1 = k'
      · rw [if_pos hpk, if_pos hpk]
      · rw [if_neg hpk, if_neg hpk]
        exact ih

theorem tblGet_append_single_self {κ ρ : Type} [DecidableEq κ] (l : List (κ × ρ)) (k : κ) (v : ρ)
    (h : tblGet l k = none) : tblGet (l ++ [(k, v)]) k = some v := by
  induction l with
  | nil => simp [tblGet_cons]
  | cons p rest ih =>
    rw [tblGet_cons] at h
    by_cases hp : p.1 = k
    · rw [if_pos hp] at h
      exact absurd h (by simp)
    · rw [if_neg hp] at h
      simp only [List.cons_append, tblGet_cons, if_neg hp]
      exact ih h

theorem tblGet_append_single_ne {κ ρ : Type} [DecidableEq κ] (l : List (κ × ρ)) (k k' : κ) (v : ρ)
    (h : ¬ k' = k) : tblGet (l ++ [(k, v)]) k' = tblGet l k' := by
  induction l with
  | nil =>
    simp only [List.nil_append, tblGet_cons, tblGet_nil]
    rw [if_neg (fun hh : k = k' => h hh.symm)]
  | cons p rest ih =>
    simp only [List.cons_append, tblGet_cons]
    by_cases hpk : p.1 = k'
    · rw [if_pos hpk, if_pos hpk]
    · rw [if_neg hpk, if_neg hpk]
      exact ih

theorem any_key_of_tblGet_isSome {κ ρ : Type} [DecidableEq κ] (l : List (κ × ρ)) (k : κ) :
    l.any (fun p => p.1 = k) = true ↔ ¬ tblGet l k = none := by
  rw [tblGet_eq_none_iff]
  simp

theorem tblGet_tblSet_self {κ ρ : Type} [DecidableEq κ] (l : List (κ × ρ)) (k : κ) (v : ρ) :
    tblGet (tblSet l k v) k = some v := by
  unfold tblSet
  by_cases hany : l.any (fun p => p.1 = k) = true
  · rw [if_pos hany, tblGet_map_set_self]
    rcases hg : tblGet l k with _ | w
    · exact absurd hg ((any_key_of_tblGet_isSome l k).mp hany)
    · simp
  · rw [if_neg hany]
    apply tblGet_append_single_self
    by_contra hcon
    exact hany ((any_key_of_tblGet_isSome l k).mpr hcon)

theorem tblGet_tblSet_ne {κ ρ : Type} [DecidableEq κ] (l : List (κ × ρ)) (k k' : κ) (v : ρ)
    (h : ¬ k' = k) : tblGet (tblSet l k v) k' = tblGet l k' := by
  unfold tblSet
  by_cases hany : l.any (fun p => p.1 = k) = true
  · rw [if_pos hany, tblGet_map_set_ne _ _ _ _ h]
  · rw [if_neg hany, tblGet_append_single_ne _ _ _ _ h]

theorem tblGet_tblDel_self {κ ρ : Type} [DecidableEq κ] (l : List (κ × ρ)) (k : κ) :
    tblGet (tblDel l k) k = none := by
  unfold tblDel
  induction l with
  | nil => simp [tblGet_nil]
  | cons p rest ih =>
    by_cases hp : p.1 = k
    · simpa [List.filter_cons, hp] using ih
    · simpa [List.filter_cons, hp, tblGet_cons] using ih

theorem tblGet_tblDel_ne {κ ρ : Type} [DecidableEq κ] (l : List (κ × ρ)) (k k' : κ)
    (h : ¬ k' = k) : tblGet (tblDel l k) k' = tblGet l k' := by
  unfold tblDel
  induction l with
  | nil => simp
  | cons p rest ih =>
    simp only [List.filter_cons, decide_not] at ih ⊢
    by_cases hp : p.1 = k
    · have hpk : ¬ p.1 = k' := fun hh => h (hp ▸ hh).symm
      rw [show (!decide (p.1 = k)) = false by simp [hp]]
      simp only [Bool.false_eq_true, if_false]
      rw [tblGet_cons, if_neg hpk]
      exact ih
    · rw [show (!decide (p.1 = k)) = true by simp [hp]]
      simp only [if_true, tblGet_cons]
      by_cases hpk : p.1 = k'
      · rw [if_pos hpk, if_pos hpk]
      · rw [if_neg hpk, if_neg hpk]
        exact ih

theorem tblGet_mapUpdate_self {κ ρ : Type} [DecidableEq κ] (l : List (κ × ρ)) (k : κ)
    (f : ρ → ρ) :
    tblGet (l.map (fun p => if p.1 = k then (p.1, f p.2) else p)) k = (tblGet l k).map f := by
  induction l with
  | nil => simp [tblGet_nil]
  | cons p rest ih =>
    by_cases hp : p.1 = k
    · simp [tblGet_cons, hp]
    · simp only [List.map_cons, if_neg hp, tblGet_cons, if_neg hp]
      exact ih

theorem tblGet_mapUpdate_ne {κ ρ : Type} [DecidableEq κ] (l : List (κ × ρ)) (k k' : κ)
    (f : ρ → ρ) (h : ¬ k' = k) :
    tblGet (l.map (fun p => if p.1 = k then (p.1, f p.2) else p)) k' = tblGet l k' := by
  induction l with
  | nil => simp
  | cons p rest ih =>
    by_cases hp : p.1 = k
    · simp only [List.map_cons, if_pos hp, tblGet_cons]
      have hpk : ¬ p.1 = k' := fun hh => h (hp ▸ hh).symm
      rw [if_neg hpk, if_neg hpk]
      exact ih
    · simp only [List.map_cons, if_neg hp, tblGet_cons]
      by_cases hpk : p.1 = k'
      · rw [if_pos hpk, if_pos hpk]
      · rw [if_neg hpk, if_neg hpk]
        exact ih

theorem mapUpdate_eq_self {κ ρ : Type} [DecidableEq κ] (l : List (κ × ρ)) (k : κ) (f : ρ → ρ)
    (h : tblGet l k = none) :
    l.map (fun p => if p.1 = k then (p.1, f p.2) else p) = l := by
  conv_rhs => rw [show l = l.map id from (List.map_id l).symm]
  apply List.map_congr_left
  intro p hp
  rw [if_neg ((tblGet_eq_none_iff l k).mp h p hp)]
  rfl

/- ============================================================
   C2 — session:save then bulk read
   ============================================================ -/

/-- C2 (amended): after any session:save, GET /sessions/:id returns
exactly the saved header fields plus the saved message list; every
header field — messageCount and timestamps included — is stored and
returned verbatim as submitted by the client. The only server-computed
column is the row's updated_at, which is not part of the response. -/
theorem sessionSave_read_returns_saved_payload_verbatim
    (st : DOState) (now : Nat) (rid id : String) (fs : List (String × Json)) (messages : Json) :
    (applyMessage st now (WSClientMessage.sessionSave rid id (Json.obj fs) messages)).sessions
      = tblSet st.sessions id (SessionRow.mk (Json.obj fs) messages now) ∧
    restGetSession (applyMessage st now (WSClientMessage.sessionSave rid id (Json.obj fs) messages))
        id
      = some (Json.obj (setField fs "messages" messages)) := by
  refine ⟨rfl, ?_⟩
  unfold applyMessage
  simp only [handleMessage]
  unfold restGetSession
  rw [tblGet_tblSet_self]
  simp [jsonSpreadFields]

/-- C2 counterexample: a session saved with a client-submitted
messageCount of 7 and an empty message list reads back with
messageCount 7, the client value — not the server-computed count 0 of
the stored message list — refuting the claim that the returned
messageCount reflects server-computed values when the two differ. -/
theorem sessionSave_read_keeps_client_messageCount :
    (restGetSession
        (applyMessage DOState.empty 5
          (WSClientMessage.sessionSave "r1" "s1"
            (Json.obj [("id", Json.str "s1"), ("messageCount", Json.num 7)]) (Json.arr [])))
        "s1").bind (fun j => lookupField j "messageCount") = some (Json.num 7) ∧
    (restGetSession
        (applyMessage DOState.empty 5
          (WSClientMessage.sessionSave "r1" "s1"
            (Json.obj [("id", Json.str "s1"), ("messageCount", Json.num 7)]) (Json.arr [])))
        "s1").bind (fun j => lookupField j "messages") = some (Json.arr []) ∧
    ¬ (Json.num 7 = Json.num 0) := by
  refine ⟨by decide, by decide, by decide⟩

/- ============================================================
   C8 — delete then get / update on deleted entities
   ============================================================ -/

/-- C8 (amended): after a delete, a get of the same entity is
not-found for every entity kind; session:updateMeta and
session:updateSdkId on a missing session fail with the not-found
error; but session:clearMessages and source:saveGuide are
unconditional UPDATEs that succeed (touching zero rows and leaving the
state unchanged) on a deleted entity. -/
theorem delete_then_get_and_updates_on_deleted :
    (∀ (st : DOState) (now : Nat) (rid sid : String),
        restGetSession (applyMessage st now (WSClientMessage.sessionDelete rid sid)) sid = none) ∧
    (∀ (st : DOState) (now : Nat) (rid slug : String),
        restGetSource (applyMessage st now (WSClientMessage.sourceDelete rid slug)) slug = none) ∧
    (∀ (st : DOState) (now : Nat) (rid slug : String),
        tblGet (applyMessage st now (WSClientMessage.skillDelete rid slug)).skills slug = none) ∧
    (∀ (st : DOState) (now : Nat) (rid sid fname : String),
        restGetPlan (applyMessage st now (WSClientMessage.planDelete rid sid fname)) sid fname
          = none) ∧
    (∀ (st : DOState) (now : Nat) (rid sid : String) (updates : Json),
        tblGet st.sessions sid = none →
        handleMessage st now (WSClientMessage.sessionUpdateMeta rid sid updates)
          = Except.error ("Session not found: " ++ sid)) ∧
    (∀ (st : DOState) (now : Nat) (rid sid sdkId : String),
        tblGet st.sessions sid = none →
        handleMessage st now (WSClientMessage.sessionUpdateSdkId rid sid sdkId)
          = Except.error ("Session not found: " ++ sid)) ∧
    (∀ (st : DOState) (now : Nat) (rid sid : String),
        tblGet st.sessions sid = none →
        handleMessage st now (WSClientMessage.sessionClearMessages rid sid)
          = Except.ok (successJson, st)) ∧
    (∀ (st : DOState) (now : Nat) (rid slug : String) (guide : Json),
        tblGet st.sources slug = none →
        handleMessage st now (WSClientMessage.sourceSaveGuide rid slug guide)
          = Except.ok (successJson, st)) := by
  refine ⟨?_, ?_, ?_, ?_, ?_, ?_, ?_, ?_⟩
  · intro st now rid sid
    simp only [applyMessage, handleMessage, restGetSession]
    rw [tblGet_tblDel_self]
    rfl
  · intro st now rid slug
    simp only [applyMessage, handleMessage, restGetSource]
    rw [tblGet_tblDel_self]
    rfl
  · intro st now rid slug
    simp only [applyMessage, handleMessage]
    exact tblGet_tblDel_self _ _
  · intro st now rid sid fname
    simp only [applyMessage, handleMessage, restGetPlan]
    rw [tblGet_tblDel_self]
    rfl
  · intro st now rid sid updates h
    simp only [handleMessage, h]
  · intro st now rid sid sdkId h
    simp only [handleMessage, h]
  · intro st now rid sid h
    simp only [handleMessage]
    have hm : (st.sessions.map (fun p =>
        if p.1 = sid then
          (p.1, { header := p.2.header, messages := Json.arr [], updatedAt := now })
        else p)) = st.sessions :=
      mapUpdate_eq_self _ _
        (fun r => { header := r.header, messages := Json.arr [], updatedAt := now }) h
    rw [hm]
  · intro st now rid slug guide h
    simp only [handleMessage]
    have hm : (st.sources.map (fun p =>
        if p.1 = slug then
          (p.1, { config := p.2.config, guide := some guide, updatedAt := now })
        else p)) = st.sources :=
      mapUpdate_eq_self _ _
        (fun r => { config := r.config, guide := some guide, updatedAt := now }) h
    rw [hm]

/-- Witness for C8 at concrete inputs: deleting a session makes its
read not-found, updateMeta on the missing session errors, and
clearMessages on the missing session succeeds. -/
theorem delete_then_get_and_updates_on_deleted_witness :
    restGetSession (applyMessage DOState.empty 0 (WSClientMessage.sessionDelete "r" "s1")) "s1"
      = none ∧
    handleMessage DOState.empty 0 (WSClientMessage.sessionUpdateMeta "r" "s1" (Json.obj []))
      = Except.error ("Session not found: " ++ "s1") ∧
    handleMessage DOState.empty 0 (WSClientMessage.sessionClearMessages "r" "s1")
      = Except.ok (successJson, DOState.empty) :=
  ⟨delete_then_get_and_updates_on_deleted.1 DOState.empty 0 "r" "s1",
   delete_then_get_and_updates_on_deleted.2.2.2.2.1 DOState.empty 0 "r" "s1" (Json.obj [])
     (by decide),
   delete_then_get_and_updates_on_deleted.2.2.2.2.2.2.1 DOState.empty 0 "r" "s1" (by decide)⟩

/-- C8 counterexample: create session s1, delete it, then
session:clearMessages on the deleted session succeeds with a success
result (an UPDATE over zero rows) instead of failing with the
not-found error the claim requires. -/
theorem clearMessages_on_deleted_succeeds :
    restGetSession
        (applyMessage
          (applyMessage DOState.empty 0
            (WSClientMessage.sessionCreate "r1" (Json.obj [("id", Json.str "s1")])))
          1 (WSClientMessage.sessionDelete "r2" "s1"))
        "s1" = none ∧
    handleMessage
        (applyMessage
          (applyMessage DOState.empty 0
            (WSClientMessage.sessionCreate "r1" (Json.obj [("id", Json.str "s1")])))
          1 (WSClientMessage.sessionDelete "r2" "s1"))
        2 (WSClientMessage.sessionClearMessages "r3" "s1")
      = Except.ok (successJson,
          applyMessage
            (applyMessage DOState.empty 0
              (WSClientMessage.sessionCreate "r1" (Json.obj [("id", Json.str "s1")])))
            1 (WSClientMessage.sessionDelete "r2" "s1")) := by
  refine ⟨by decide, by decide⟩

/- ============================================================
   C1 — response and broadcast routing
   ============================================================ -/

theorem broadcastList_filter_none (conns : List Conn) (sender : Nat) (m : WSServerMessage)
    (k : Nat)
    (h : ∀ c ∈ conns, (c.connId ≠ sender ∧ c.isSandbox = false) → c.connId ≠ k) :
    (conns.filterMap (fun c =>
        if c.connId ≠ sender ∧ c.isSandbox = false then some (c.connId, m) else none)).filter
      (fun p => p.1 = k) = [] := by
  induction conns with
  | nil => rfl
  | cons d rest ih =>
    rw [List.filterMap_cons]
    by_cases hd : d.connId ≠ sender ∧ d.isSandbox = false
    · rw [if_pos hd]
      rw [List.filter_cons]
      rw [show (decide ((d.connId, m).1 = k)) = false by
        simp only [decide_eq_false_iff_not]
        exact h d (by simp) hd]
      simp only [Bool.false_eq_true, if_false]
      exact ih (fun c hc => h c (by simp [hc]))
    · rw [if_neg hd]
      exact ih (fun c hc => h c (by simp [hc]))

theorem broadcastList_filter_self (conns : List Conn) (sender : Nat) (m : WSServerMessage)
    (c : Conn) (hnd : (conns.map Conn.connId).Nodup) (hc : c ∈ conns)
    (h1 : c.connId ≠ sender) (h2 : c.isSandbox = false) :
    (conns.filterMap (fun c' =>
        if c'.connId ≠ sender ∧ c'.isSandbox = false then some (c'.connId, m) else none)).filter
      (fun p => p.1 = c.connId) = [(c.connId, m)] := by
  induction conns with
  | nil => exact absurd hc (by simp)
  | cons d rest ih =>
    rw [List.map_cons, List.nodup_cons] at hnd
    rcases List.mem_cons.mp hc with hcd | hcr
    · subst hcd
      rw [List.filterMap_cons, if_pos ⟨h1, h2⟩, List.filter_cons]
      rw [show (decide ((c.connId, m).1 = c.connId)) = true by simp]
      simp only [if_true]
      congr 1
      apply broadcastList_filter_none
      intro c' hc' _ hck
      exact hnd.1 (hck ▸ List.mem_map_of_mem Conn.connId hc')
    · rw [List.filterMap_cons]
      have hdc : ¬ d.connId = c.connId := by
        intro hh
        exact hnd.1 (hh ▸ List.mem_map_of_mem Conn.connId hcr)
      by_cases hd : d.connId ≠ sender ∧ d.isSandbox = false
      · rw [if_pos hd, List.filter_cons]
        rw [show (decide ((d.connId, m).1 = c.connId)) = false by simpa using hdc]
        simp only [Bool.false_eq_true, if_false]
        exact ih hnd.2 hcr
      · rw [if_neg hd]
        exact ih hnd.2 hcr

theorem broadcastList_filter_sandbox (conns : List Conn) (sender : Nat) (m : WSServerMessage)
    (c : Conn) (hnd : (conns.map Conn.connId).Nodup) (hc : c ∈ conns)
    (h2 : c.isSandbox = true) :
    (conns.filterMap (fun c' =>
        if c'.connId ≠ sender ∧ c'.isSandbox = false then some (c'.connId, m) else none)).filter
      (fun p => p.1 = c.connId) = [] := by
  apply broadcastList_filter_none
  intro c' hc' hcond hck
  have : c' = c := by
    have hinj := List.inj_on_of_nodup_map hnd
    exact hinj hc' hc hck
  rw [this] at hcond
  rw [h2] at hcond
  exact absurd hcond.2 (by simp)

/-- Generic routing facts for one successfully handled sync message:
the ordered send list contains exactly one message addressed to the
sender (the response envelope carrying the request id), exactly one
broadcast per other non-sandbox connection, and nothing for
sandbox-tagged connections. -/
theorem syncDeliver_routing (conns : List Conn) (sender : Nat) (st : DOState) (now : Nat)
    (msg : WSClientMessage) (result : Json) (st' : DOState) (ev : ChangeEvent)
    (h : handleMessage st now msg = Except.ok (result, st'))
    (hev : toChangeEvent msg result = some ev)
    (hnd : (conns.map Conn.connId).Nodup) :
    (syncWebSocketMessage conns sender st now msg).1.filter (fun p => p.1 = sender)
      = [(sender, WSServerMessage.response msg.requestId (some result) none)] ∧
    (∀ c ∈ conns, c.connId ≠ sender → c.isSandbox = false →
      (syncWebSocketMessage conns sender st now msg).1.filter (fun p => p.1 = c.connId)
        = [(c.connId, WSServerMessage.broadcastEvt ev)]) ∧
    (∀ c ∈ conns, c.connId ≠ sender → c.isSandbox = true →
      (syncWebSocketMessage conns sender st now msg).1.filter (fun p => p.1 = c.connId) = []) ∧
    (syncWebSocketMessage conns sender st now msg).2 = st' := by
  unfold syncWebSocketMessage
  simp only [h, hev]
  refine ⟨?_, ?_, ?_, by trivial⟩
  · rw [List.filter_cons]
    rw [show (decide ((sender, WSServerMessage.response msg.requestId (some result) none).1
        = sender)) = true by simp]
    simp only [if_true]
    congr 1
    exact broadcastList_filter_none conns sender _ sender (fun c _ hcond => hcond.1)
  · intro c hc h1 h2
    rw [List.filter_cons]
    rw [show (decide ((sender, WSServerMessage.response msg.requestId (some result) none).1
        = c.connId)) = false by simpa using fun hh => h1 hh.symm]
    simp only [Bool.false_eq_true, if_false]
    exact broadcastList_filter_self conns sender _ c hnd hc h1 h2
  · intro c hc h1 h2
    rw [List.filter_cons]
    rw [show (decide ((sender, WSServerMessage.response msg.requestId (some result) none).1
        = c.connId)) = false by simpa using fun hh => h1 hh.symm]
    simp only [Bool.false_eq_true, if_false]
    exact broadcastList_filter_sandbox conns sender _ c hnd hc h2

/-- C1 (amended): for every sync mutation the server handles
successfully, the sender receives exactly one response envelope
carrying its requestId and the result; every other connected
non-sandbox connection receives exactly one broadcast change event and
no response; sandbox-tagged connections receive nothing. The broadcast
payload is the value computed by toChangeEvent, which equals the
server-persisted result only for some message types: in particular for
statuses:save the event data equals what a fresh GET /statuses returns
from the post-state, while for other types (session:save among them)
the event data is taken from the client message. -/
theorem syncMutation_response_and_broadcast_routing
    (conns : List Conn) (sender : Nat) (st : DOState) (now : Nat) (msg : WSClientMessage)
    (result : Json) (st' : DOState)
    (h : handleMessage st now msg = Except.ok (result, st'))
    (hnd : (conns.map Conn.connId).Nodup) :
    ∃ ev, toChangeEvent msg result = some ev ∧
      (syncWebSocketMessage conns sender st now msg).1.filter (fun p => p.1 = sender)
        = [(sender, WSServerMessage.response msg.requestId (some result) none)] ∧
      (∀ c ∈ conns, c.connId ≠ sender → c.isSandbox = false →
        (syncWebSocketMessage conns sender st now msg).1.filter (fun p => p.1 = c.connId)
          = [(c.connId, WSServerMessage.broadcastEvt ev)]) ∧
      (∀ c ∈ conns, c.connId ≠ sender → c.isSandbox = true →
        (syncWebSocketMessage conns sender st now msg).1.filter (fun p => p.1 = c.connId)
          = []) ∧
      (∀ rid d, msg = WSClientMessage.statusesSave rid d →
        ev.data = d ∧ restGetStatuses st' = d) := by
  have hex : ∃ ev, toChangeEvent msg result = some ev := by
    cases msg <;> simp [toChangeEvent]
    · simp [handleMessage] at h
  obtain ⟨ev, hev⟩ := hex
  obtain ⟨hs, hb, hsb, _⟩ := syncDeliver_routing conns sender st now msg result st' ev h hev hnd
  refine ⟨ev, hev, hs, hb, hsb, ?_⟩
  intro rid d heq
  subst heq
  simp only [handleMessage] at h
  have hpair := Except.ok.inj h
  have hres : result = successJson := (congrArg Prod.fst hpair).symm
  have hstate : st' = { st with statusesCfg := some d } := (congrArg Prod.snd hpair).symm
  simp only [toChangeEvent] at hev
  have hevval := Option.some.inj hev
  constructor
  · rw [← hevval]
  · rw [hstate]
    rfl

/-- Witness for C1 routing at concrete inputs: two sync connections,
sender 0, a statuses:save message. -/
theorem syncMutation_response_and_broadcast_routing_witness :
    ∃ ev,
      toChangeEvent (WSClientMessage.statusesSave "q" (Json.obj [("version", Json.num 1)]))
          successJson = some ev ∧
      (syncWebSocketMessage [Conn.mk 0 [], Conn.mk 1 []] 0 DOState.empty 3
          (WSClientMessage.statusesSave "q" (Json.obj [("version", Json.num 1)]))).1.filter
          (fun p => p.1 = 0)
        = [(0, WSServerMessage.response "q" (some successJson) none)] ∧
      (∀ c ∈ [Conn.mk 0 [], Conn.mk 1 []], c.connId ≠ 0 → c.isSandbox = false →
        (syncWebSocketMessage [Conn.mk 0 [], Conn.mk 1 []] 0 DOState.empty 3
            (WSClientMessage.statusesSave "q" (Json.obj [("version", Json.num 1)]))).1.filter
            (fun p => p.1 = c.connId)
          = [(c.connId, WSServerMessage.broadcastEvt ev)]) ∧
      (∀ c ∈ [Conn.mk 0 [], Conn.mk 1 []], c.connId ≠ 0 → c.isSandbox = true →
        (syncWebSocketMessage [Conn.mk 0 [], Conn.mk 1 []] 0 DOState.empty 3
            (WSClientMessage.statusesSave "q" (Json.obj [("version", Json.num 1)]))).1.filter
            (fun p => p.1 = c.connId)
          = []) ∧
      (∀ rid d,
        WSClientMessage.statusesSave "q" (Json.obj [("version", Json.num 1)])
          = WSClientMessage.statusesSave rid d →
        ev.data = d ∧
          restGetStatuses
            (syncWebSocketMessage [Conn.mk 0 [], Conn.mk 1 []] 0 DOState.empty 3
              (WSClientMessage.statusesSave "q" (Json.obj [("version", Json.num 1)]))).2 = d) := by
  have hmain := syncMutation_response_and_broadcast_routing
    [Conn.mk 0 [], Conn.mk 1 []] 0 DOState.empty 3
    (WSClientMessage.statusesSave "q" (Json.obj [("version", Json.num 1)]))
    successJson
    { DOState.empty with statusesCfg := some (Json.obj [("version", Json.num 1)]) }
    (by decide) (by decide)
  obtain ⟨ev, hev, hs, hb, hsb, hst⟩ := hmain
  refine ⟨ev, hev, hs, hb, hsb, ?_⟩
  intro rid d heq
  obtain ⟨h1, h2⟩ := hst rid d heq
  refine ⟨h1, ?_⟩
  rw [show (syncWebSocketMessage [Conn.mk 0 [], Conn.mk 1 []] 0 DOState.empty 3
      (WSClientMessage.statusesSave "q" (Json.obj [("version", Json.num 1)]))).2
      = { DOState.empty with statusesCfg := some (Json.obj [("version", Json.num 1)]) }
    from by decide]
  exact h2

/-- C1 counterexample: for a session:save mutation from peer 0, peer 1
receives a broadcast whose data is the raw client-submitted header,
while a fresh read of the session returns the header plus the stored
messages list — a different value, refuting the claim that the
broadcast payload always equals what a fresh read returns and is never
the raw client payload. -/
theorem sessionSave_broadcast_is_client_header_not_fresh_read :
    (syncWebSocketMessage [Conn.mk 0 [], Conn.mk 1 []] 0 DOState.empty 7
        (WSClientMessage.sessionSave "req1" "s1"
          (Json.obj [("id", Json.str "s1"), ("name", Json.str "Test")])
          (Json.arr [Json.obj [("role", Json.str "user")]]))).1.filter (fun p => p.1 = 1)
      = [(1, WSServerMessage.broadcastEvt
            { entity := "session", action := "updated",
              data := Json.obj [("id", Json.str "s1"), ("name", Json.str "Test")] })] ∧
    restGetSession
        (syncWebSocketMessage [Conn.mk 0 [], Conn.mk 1 []] 0 DOState.empty 7
          (WSClientMessage.sessionSave "req1" "s1"
            (Json.obj [("id", Json.str "s1"), ("name", Json.str "Test")])
            (Json.arr [Json.obj [("role", Json.str "user")]]))).2 "s1"
      = some (Json.obj [("id", Json.str "s1"), ("name", Json.str "Test"),
          ("messages", Json.arr [Json.obj [("role", Json.str "user")]])]) ∧
    ¬ (Json.obj [("id", Json.str "s1"), ("name", Json.str "Test")]
        = Json.obj [("id", Json.str "s1"), ("name", Json.str "Test"),
            ("messages", Json.arr [Json.obj [("role", Json.str "user")]])]) := by
  refine ⟨by decide, by decide, by decide⟩

/- ============================================================
   C4/C5/C6 — sandbox lifecycle lemmas
   ============================================================ -/

theorem tblGet_map_valUpdate {κ ρ : Type} [DecidableEq κ] (l : List (κ × ρ)) (f : ρ → ρ)
    (k : κ) : tblGet (l.map (fun p => (p.1, f p.2))) k = (tblGet l k).map f := by
  induction l with
  | nil => simp [tblGet_nil]
  | cons p rest ih =>
    by_cases hp : p.1 = k
    · simp [tblGet_cons, hp]
    · simp only [List.map_cons, tblGet_cons, if_neg hp]
      exact ih

theorem tblGet_some_mem {κ ρ : Type} [DecidableEq κ] (l : List (κ × ρ)) (k : κ) (v : ρ)
    (h : tblGet l k = some v) : (k, v) ∈ l := by
  induction l with
  | nil => simp [tblGet_nil] at h
  | cons p rest ih =>
    rw [tblGet_cons] at h
    by_cases hp : p.1 = k
    · rw [if_pos hp] at h
      have hv : p.2 = v := Option.some.inj h
      have : p = (k, v) := by
        rw [← hp, ← hv]
      rw [← this]
      exact List.mem_cons_self p rest
    · rw [if_neg hp] at h
      exact List.mem_cons_of_mem p (ih h)

theorem tblGet_filter_nodup {κ ρ : Type} [DecidableEq κ] (l : List (κ × ρ))
    (P : κ × ρ → Prop) [DecidablePred P] (k : κ) (hnd : (l.map Prod.fst).Nodup) :
    tblGet (l.filter (fun p => P p)) k
      = (tblGet l k).bind (fun v => if P (k, v) then some v else none) := by
  induction l with
  | nil => simp [tblGet_nil]
  | cons p rest ih =>
    rw [List.map_cons, List.nodup_cons] at hnd
    rw [List.filter_cons]
    by_cases hp : p.1 = k
    · have hpair : p = (k, p.2) := by rw [← hp]
      by_cases hP : P p
      · rw [if_pos (by simpa using hP)]
        rw [tblGet_cons, if_pos hp, tblGet_cons, if_pos hp]
        rw [Option.some_bind]
        rw [if_pos (hpair ▸ hP)]
      · rw [if_neg (by simpa using hP)]
        rw [tblGet_cons, if_pos hp]
        rw [Option.some_bind]
        rw [if_neg (fun hh => hP (hpair ▸ hh))]
        rw [(tblGet_eq_none_iff _ _).mpr]
        intro q hq
        intro hqk
        have : q.1 ∈ rest.map Prod.fst := List.mem_map_of_mem Prod.fst (List.mem_of_mem_filter hq)
        exact hnd.1 (hp ▸ hqk ▸ this)
    · rw [tblGet_cons, if_neg hp]
      by_cases hP : P p
      · rw [if_pos (by simpa using hP)]
        rw [tblGet_cons, if_neg hp]
        exact ih hnd.2
      · rw [if_neg (by simpa using hP)]
        exact ih hnd.2

theorem tblGet_markRows_self (l : List (String × SandboxRow)) (sid : String)
    (f : SandboxRow → SandboxRow) :
    tblGet (markRows l sid f) sid = (tblGet l sid).map f :=
  tblGet_mapUpdate_self l sid f

theorem tblGet_markRows_ne (l : List (String × SandboxRow)) (sid k : String)
    (f : SandboxRow → SandboxRow) (h : ¬ k = sid) :
    tblGet (markRows l sid f) k = tblGet l k :=
  tblGet_mapUpdate_ne l sid k f h

theorem sandboxStatus_rank_le_four (s : SandboxStatus) : s.rank ≤ 4 := by
  cases s <;> decide

theorem expireStale_rank_ge (now : Nat) (r : SandboxRow) :
    r.status.rank ≤ (expireStale now r).status.rank := by
  unfold expireStale
  split
  · exact sandboxStatus_rank_le_four r.status
  · exact Nat.le_refl _

theorem map_fst_valUpdate {κ ρ : Type} (l : List (κ × ρ)) (f : ρ → ρ) :
    (l.map (fun p => (p.1, f p.2))).map Prod.fst = l.map Prod.fst := by
  rw [List.map_map]
  rfl

/-- C4 (amended): apart from sandboxHeartbeat — which every sandbox
WebSocket message also invokes, and which unconditionally forces an
existing row back to ready, even from expired — every sandbox
operation only moves a session's status forward in the order
provisioning, cloning, ready, idle, expired. -/
theorem sandbox_status_forward_except_heartbeat :
    (∀ (encKey : String) (st : SandboxState) (op : SbOp),
        op.isHeartbeat = false → (st.sbRows.map Prod.fst).Nodup →
        ∀ (sid : String) (r r' : SandboxRow),
          tblGet st.sbRows sid = some r →
          tblGet (sbStep encKey st op).sbRows sid = some r' →
          r.status.rank ≤ r'.status.rank) ∧
    (∀ (st : SandboxState) (sid : String) (now : Nat) (r : SandboxRow),
        tblGet st.sbRows sid = some r →
        tblGet (sandboxHeartbeat st sid now).sbRows sid
          = some { r with lastActivityAt := now, expiresAt := now + 30 * 60 * 1000,
                          status := SandboxStatus.ready }) := by
  constructor
  · intro encKey st op hhb hnd sid r r' hpre hpost
    cases op with
    | heartbeat sid' nw => simp [SbOp.isHeartbeat] at hhb
    | wsMessage sid' nw => simp [SbOp.isHeartbeat] at hhb
    | create rk b sid' nw c k =>
      simp only [sbStep] at hpost
      cases hcred : getDecryptedCredential st rk encKey with
      | none =>
        simp only [createSandboxSession, hcred] at hpost
        rw [hpre] at hpost
        exact (Option.some.inj hpost) ▸ Nat.le_refl _
      | some cred =>
        by_cases hdup : (tblGet st.sbRows sid').isSome = true
        · simp only [createSandboxSession, hcred, if_pos hdup] at hpost
          rw [hpre] at hpost
          exact (Option.some.inj hpost) ▸ Nat.le_refl _
        · have hne : ¬ sid = sid' := by
            intro hh
            exact hdup (by rw [← hh, hpre]; rfl)
          simp only [createSandboxSession, hcred, if_neg hdup] at hpost
          split at hpost
          · dsimp only at hpost
            rw [tblGet_markRows_ne _ _ _ _ hne, tblGet_markRows_ne _ _ _ _ hne,
              tblGet_tblSet_ne _ _ _ _ hne, hpre] at hpost
            exact (Option.some.inj hpost) ▸ Nat.le_refl _
          · split at hpost
            · dsimp only at hpost
              rw [tblGet_markRows_ne _ _ _ _ hne, tblGet_markRows_ne _ _ _ _ hne,
                tblGet_tblSet_ne _ _ _ _ hne, hpre] at hpost
              exact (Option.some.inj hpost) ▸ Nat.le_refl _
            · dsimp only at hpost
              rw [tblGet_markRows_ne _ _ _ _ hne, tblGet_markRows_ne _ _ _ _ hne,
                tblGet_tblSet_ne _ _ _ _ hne, hpre] at hpost
              exact (Option.some.inj hpost) ▸ Nat.le_refl _
    | terminate sid' =>
      simp only [sbStep] at hpost
      unfold terminateSandboxSession at hpost
      cases hrow : tblGet st.sbRows sid' with
      | none =>
        simp only [hrow] at hpost
        rw [hpre] at hpost
        exact (Option.some.inj hpost) ▸ Nat.le_refl _
      | some row =>
        simp only [hrow] at hpost
        by_cases hne : sid = sid'
        · rw [hne] at hpost
          rw [tblGet_tblDel_self] at hpost
          exact absurd hpost (by simp)
        · rw [tblGet_tblDel_ne _ _ _ hne, hpre] at hpost
          exact (Option.some.inj hpost) ▸ Nat.le_refl _
    | alarmTick nw =>
      simp only [sbStep] at hpost
      unfold alarmSweep at hpost
      dsimp only at hpost
      rw [tblGet_filter_nodup _ _ _ (by rw [map_fst_valUpdate]; exact hnd)] at hpost
      rw [tblGet_map_valUpdate, hpre] at hpost
      rw [show Option.map (expireStale nw) (some r) = some (expireStale nw r) from rfl,
        Option.some_bind] at hpost
      split at hpost
      · have := Option.some.inj hpost
        rw [← this]
        exact expireStale_rank_ge nw r
      · exact absurd hpost (by simp)
  · intro st sid now r hpre
    unfold sandboxHeartbeat
    dsimp only
    rw [tblGet_markRows_self, hpre]
    rfl

/-- Witness for C4 at concrete inputs: a terminate on a different
session id leaves an existing ready row's status in place (rank
non-decreasing), and a heartbeat on an existing row yields the
refreshed ready row. -/
theorem sandbox_status_forward_except_heartbeat_witness :
    SandboxStatus.ready.rank ≤ SandboxStatus.ready.rank ∧
    tblGet
        (sandboxHeartbeat
          { projects := [],
            sbRows := [("s",
              { repoKey := "o/r", sandboxId := "ab", branch := "main",
                status := SandboxStatus.ready, createdAt := 0, lastActivityAt := 0,
                expiresAt := 10 })],
            destroyLog := [], alarmAt := none }
          "s" 5).sbRows "s"
      = some { repoKey := "o/r", sandboxId := "ab", branch := "main",
               status := SandboxStatus.ready, createdAt := 0, lastActivityAt := 5,
               expiresAt := 5 + 30 * 60 * 1000 } :=
  ⟨sandbox_status_forward_except_heartbeat.1 "k"
      { projects := [],
        sbRows := [("s",
          { repoKey := "o/r", sandboxId := "ab", branch := "main",
            status := SandboxStatus.ready, createdAt := 0, lastActivityAt := 0,
            expiresAt := 10 })],
        destroyLog := [], alarmAt := none }
      (SbOp.terminate "t") (by decide) (by decide) "s"
      { repoKey := "o/r", sandboxId := "ab", branch := "main",
        status := SandboxStatus.ready, createdAt := 0, lastActivityAt := 0, expiresAt := 10 }
      { repoKey := "o/r", sandboxId := "ab", branch := "main",
        status := SandboxStatus.ready, createdAt := 0, lastActivityAt := 0, expiresAt := 10 }
      (by decide) (by decide),
   sandbox_status_forward_except_heartbeat.2
      { projects := [],
        sbRows := [("s",
          { repoKey := "o/r", sandboxId := "ab", branch := "main",
            status := SandboxStatus.ready, createdAt := 0, lastActivityAt := 0,
            expiresAt := 10 })],
        destroyLog := [], alarmAt := none }
      "s" 5
      { repoKey := "o/r", sandboxId := "ab", branch := "main",
        status := SandboxStatus.ready, createdAt := 0, lastActivityAt := 0, expiresAt := 10 }
      (by decide)⟩

/-- C4 counterexample: a session created through createSandboxSession
(with a real stored credential), expired by the alarm sweep, is moved
back from expired to ready by a later heartbeat — refuting the claim
that once expired a session never returns to an earlier status. -/
theorem heartbeat_resurrects_expired_session :
    (tblGet (sbStep sampleKeyHex sampleSbState
        (SbOp.create "o/r" "main" "abcd1234-e" 0 true true)).sbRows "abcd1234-e").map
        SandboxRow.status = some SandboxStatus.ready ∧
    (tblGet (sbStep sampleKeyHex
        (sbStep sampleKeyHex sampleSbState (SbOp.create "o/r" "main" "abcd1234-e" 0 true true))
        (SbOp.alarmTick 1900000)).sbRows "abcd1234-e").map SandboxRow.status
      = some SandboxStatus.expired ∧
    (tblGet (sbStep sampleKeyHex
        (sbStep sampleKeyHex
          (sbStep sampleKeyHex sampleSbState (SbOp.create "o/r" "main" "abcd1234-e" 0 true true))
          (SbOp.alarmTick 1900000))
        (SbOp.heartbeat "abcd1234-e" 1900001)).sbRows "abcd1234-e").map SandboxRow.status
      = some SandboxStatus.ready := by
  refine ⟨by decide, by decide, by decide⟩

/-- C5: createSandboxSession with no valid (stored and decryptable)
credential fails fast with the structured error and leaves the state
unchanged — in particular no sandbox_sessions row is left in any
state, ready included; and when cloning or the branch checkout fails,
the freshly inserted row ends the call marked expired and a structured
error is returned; the operation is a single pass with no retry. -/
theorem createSandboxSession_failure_handling :
    (∀ (st : SandboxState) (encKey repoKey branch sessionId : String) (now : Nat)
        (cloneOk checkoutOk : Bool),
        getDecryptedCredential st repoKey encKey = none →
        createSandboxSession st encKey repoKey branch sessionId now cloneOk checkoutOk
          = (Except.error "No GitHub credentials for this repo", st)) ∧
    (∀ (st : SandboxState) (encKey repoKey branch sessionId : String) (now : Nat)
        (checkoutOk : Bool) (cred : List Nat),
        getDecryptedCredential st repoKey encKey = some cred →
        tblGet st.sbRows sessionId = none →
        (createSandboxSession st encKey repoKey branch sessionId now false checkoutOk).1
          = Except.error "clone failed" ∧
        (tblGet (createSandboxSession st encKey repoKey branch sessionId now false
            checkoutOk).2.sbRows sessionId).map SandboxRow.status
          = some SandboxStatus.expired) ∧
    (∀ (st : SandboxState) (encKey repoKey branch sessionId : String) (now : Nat)
        (cred : List Nat),
        getDecryptedCredential st repoKey encKey = some cred →
        tblGet st.sbRows sessionId = none →
        ¬ branch = "" → ¬ branch = "main" → ¬ branch = "master" →
        (createSandboxSession st encKey repoKey branch sessionId now true false).1
          = Except.error "checkout failed" ∧
        (tblGet (createSandboxSession st encKey repoKey branch sessionId now true
            false).2.sbRows sessionId).map SandboxRow.status
          = some SandboxStatus.expired) := by
  refine ⟨?_, ?_, ?_⟩
  · intro st encKey repoKey branch sessionId now cloneOk checkoutOk hcred
    unfold createSandboxSession
    rw [hcred]
  · intro st encKey repoKey branch sessionId now checkoutOk cred hcred hfresh
    unfold createSandboxSession
    rw [hcred]
    dsimp only
    rw [if_neg (by rw [hfresh]; simp)]
    rw [if_pos rfl]
    refine ⟨rfl, ?_⟩
    dsimp only
    rw [tblGet_markRows_self, tblGet_markRows_self, tblGet_tblSet_self]
    rfl
  · intro st encKey repoKey branch sessionId now cred hcred hfresh hb1 hb2 hb3
    unfold createSandboxSession
    rw [hcred]
    dsimp only
    rw [if_neg (by rw [hfresh]; simp)]
    rw [if_neg (by simp)]
    rw [if_pos ⟨⟨hb1, hb2, hb3⟩, rfl⟩]
    refine ⟨rfl, ?_⟩
    dsimp only
    rw [tblGet_markRows_self, tblGet_markRows_self, tblGet_tblSet_self]
    rfl

/-- Witness for C5 at concrete inputs: a repo with no stored
credential fails fast leaving the state unchanged, and a clone failure
on a repo with a valid credential leaves the new row expired. -/
theorem createSandboxSession_failure_handling_witness :
    createSandboxSession sampleSbState sampleKeyHex "x/y" "main" "abcd1234-e" 0 true true
      = (Except.error "No GitHub credentials for this repo", sampleSbState) ∧
    ((createSandboxSession sampleSbState sampleKeyHex "o/r" "main" "abcd1234-e" 0 false true).1
        = Except.error "clone failed" ∧
      (tblGet (createSandboxSession sampleSbState sampleKeyHex "o/r" "main" "abcd1234-e" 0 false
          true).2.sbRows "abcd1234-e").map SandboxRow.status = some SandboxStatus.expired) ∧
    ((createSandboxSession sampleSbState sampleKeyHex "o/r" "dev" "abcd1234-e" 0 true false).1
        = Except.error "checkout failed" ∧
      (tblGet (createSandboxSession sampleSbState sampleKeyHex "o/r" "dev" "abcd1234-e" 0 true
          false).2.sbRows "abcd1234-e").map SandboxRow.status = some SandboxStatus.expired) :=
  ⟨createSandboxSession_failure_handling.1 sampleSbState sampleKeyHex "x/y" "main" "abcd1234-e"
      0 true true (by decide),
   createSandboxSession_failure_handling.2.1 sampleSbState sampleKeyHex "o/r" "main" "abcd1234-e"
      0 true [103, 104] (by decide) (by decide),
   createSandboxSession_failure_handling.2.2 sampleSbState sampleKeyHex "o/r" "dev" "abcd1234-e"
      0 [103, 104] (by decide) (by decide) (by decide) (by decide) (by decide)⟩

/-- C6 (amended): each sweep pass flags every non-expired session past
its expiry as expired and issues a destroy for its host; rows whose
expiry lies more than five minutes in the past and are flagged expired
are hard-deleted (the grace period is measured from expiresAt); rows
not yet past expiry are untouched; and the timer is rescheduled
exactly when a non-expired row remains. A terminate call does not
check the status: on an already-expired (not yet deleted) session it
still issues a host-destroy call and deletes the row — it is not a
no-op. -/
theorem alarm_sweep_and_terminate_behavior :
    (∀ (st : SandboxState) (now : Nat) (sid : String) (r : SandboxRow),
        (st.sbRows.map Prod.fst).Nodup →
        tblGet st.sbRows sid = some r →
        r.expiresAt < now → ¬ r.status = SandboxStatus.expired →
        (¬ r.expiresAt < now - 5 * 60 * 1000 →
          tblGet (alarmSweep st now).sbRows sid
            = some { r with status := SandboxStatus.expired }) ∧
        (¬ r.sandboxId = "" → r.sandboxId ∈ (alarmSweep st now).destroyLog)) ∧
    (∀ (st : SandboxState) (now : Nat) (sid : String) (r : SandboxRow),
        (st.sbRows.map Prod.fst).Nodup →
        tblGet st.sbRows sid = some r →
        r.status = SandboxStatus.expired → r.expiresAt < now - 5 * 60 * 1000 →
        tblGet (alarmSweep st now).sbRows sid = none) ∧
    (∀ (st : SandboxState) (now : Nat) (sid : String) (r : SandboxRow),
        (st.sbRows.map Prod.fst).Nodup →
        tblGet st.sbRows sid = some r → ¬ r.expiresAt < now →
        tblGet (alarmSweep st now).sbRows sid = some r) ∧
    (∀ (st : SandboxState) (now : Nat),
        (alarmSweep st now).alarmAt = some (now + 60000) ↔
          ∃ p ∈ (alarmSweep st now).sbRows, ¬ p.2.status = SandboxStatus.expired) ∧
    (∀ (st : SandboxState) (sid : String) (r : SandboxRow),
        tblGet st.sbRows sid = some r →
        terminateSandboxSession st sid
          = { st with
                destroyLog :=
                  st.destroyLog ++ (if r.sandboxId = "" then [] else [r.sandboxId]),
                sbRows := tblDel st.sbRows sid }) := by
  refine ⟨?_, ?_, ?_, ?_, ?_⟩
  · intro st now sid r hnd hpre hexp hnexp
    constructor
    · intro hgrace
      unfold alarmSweep
      dsimp only
      rw [tblGet_filter_nodup _ _ _ (by rw [map_fst_valUpdate]; exact hnd)]
      rw [tblGet_map_valUpdate, hpre]
      rw [show Option.map (expireStale now) (some r) = some (expireStale now r) from rfl,
        Option.some_bind]
      rw [show expireStale now r = { r with status := SandboxStatus.expired } from by
        unfold expireStale; rw [if_pos ⟨hexp, hnexp⟩]]
      rw [if_pos]
      intro hcon
      exact hgrace hcon.2
    · intro hsand
      unfold alarmSweep
      dsimp only
      apply List.mem_append_right
      apply List.mem_filterMap.mpr
      refine ⟨(sid, r), tblGet_some_mem _ _ _ hpre, ?_⟩
      rw [if_pos ⟨hexp, hnexp, hsand⟩]
  · intro st now sid r hnd hpre hexp hgrace
    unfold alarmSweep
    dsimp only
    rw [tblGet_filter_nodup _ _ _ (by rw [map_fst_valUpdate]; exact hnd)]
    rw [tblGet_map_valUpdate, hpre]
    rw [show Option.map (expireStale now) (some r) = some (expireStale now r) from rfl,
      Option.some_bind]
    rw [show expireStale now r = r from by
      unfold expireStale; rw [if_neg (fun hcon => hcon.2 hexp)]]
    rw [if_neg (fun hcon => hcon ⟨hexp, hgrace⟩)]
  · intro st now sid r hnd hpre hexp
    unfold alarmSweep
    dsimp only
    rw [tblGet_filter_nodup _ _ _ (by rw [map_fst_valUpdate]; exact hnd)]
    rw [tblGet_map_valUpdate, hpre]
    rw [show Option.map (expireStale now) (some r) = some (expireStale now r) from rfl,
      Option.some_bind]
    rw [show expireStale now r = r from by
      unfold expireStale; rw [if_neg (fun hcon => hexp hcon.1)]]
    rw [if_pos]
    intro hcon
    exact hexp (Nat.lt_of_lt_of_le hcon.2 (Nat.sub_le now (5 * 60 * 1000)))
  · intro st now
    unfold alarmSweep
    dsimp only
    split
    · next hany =>
      simp only [true_iff]
      obtain ⟨p, hp, hcond⟩ := List.any_eq_true.mp hany
      exact ⟨p, hp, by simpa using hcond⟩
    · next hany =>
      constructor
      · intro hcon
        exact absurd hcon (by simp)
      · intro ⟨p, hp, hcond⟩
        exact absurd (List.any_eq_true.mpr ⟨p, hp, by simpa using hcond⟩) hany
  · intro st sid r hpre
    unfold terminateSandboxSession
    rw [hpre]

/-- Witness for C6 at concrete inputs: one stale ready row gets
flagged expired with its host destroyed by the sweep, a long-expired
flagged row is hard-deleted, and terminate on an existing row destroys
its host and deletes the row. -/
theorem alarm_sweep_and_terminate_behavior_witness :
    (tblGet
        (alarmSweep
          { projects := [], sbRows := [("s",
              { repoKey := "o/r", sandboxId := "ab", branch := "main",
                status := SandboxStatus.ready, createdAt := 0, lastActivityAt := 0,
                expiresAt := 10 })],
            destroyLog := [], alarmAt := none } 100000).sbRows "s"
      = some { repoKey := "o/r", sandboxId := "ab", branch := "main",
               status := SandboxStatus.expired, createdAt := 0, lastActivityAt := 0,
               expiresAt := 10 }) ∧
    (tblGet
        (alarmSweep
          { projects := [], sbRows := [("s",
              { repoKey := "o/r", sandboxId := "ab", branch := "main",
                status := SandboxStatus.expired, createdAt := 0, lastActivityAt := 0,
                expiresAt := 10 })],
            destroyLog := [], alarmAt := none } 400000).sbRows "s" = none) ∧
    terminateSandboxSession
        { projects := [], sbRows := [("s",
            { repoKey := "o/r", sandboxId := "ab", branch := "main",
              status := SandboxStatus.ready, createdAt := 0, lastActivityAt := 0,
              expiresAt := 10 })],
          destroyLog := [], alarmAt := none } "s"
      = { projects := [], sbRows := [],
          destroyLog := [] ++ (if ("ab" : String) = "" then [] else ["ab"]), alarmAt := none } :=
  ⟨((alarm_sweep_and_terminate_behavior.1
      { projects := [], sbRows := [("s",
          { repoKey := "o/r", sandboxId := "ab", branch := "main",
            status := SandboxStatus.ready, createdAt := 0, lastActivityAt := 0,
            expiresAt := 10 })],
        destroyLog := [], alarmAt := none } 100000 "s"
      { repoKey := "o/r", sandboxId := "ab", branch := "main",
        status := SandboxStatus.ready, createdAt := 0, lastActivityAt := 0, expiresAt := 10 }
      (by decide) (by decide) (by decide) (by decide)).1 (by decide)),
   (alarm_sweep_and_terminate_behavior.2.1
      { projects := [], sbRows := [("s",
          { repoKey := "o/r", sandboxId := "ab", branch := "main",
            status := SandboxStatus.expired, createdAt := 0, lastActivityAt := 0,
            expiresAt := 10 })],
        destroyLog := [], alarmAt := none } 400000 "s"
      { repoKey := "o/r", sandboxId := "ab", branch := "main",
        status := SandboxStatus.expired, createdAt := 0, lastActivityAt := 0, expiresAt := 10 }
      (by decide) (by decide) (by decide) (by decide)),
   (alarm_sweep_and_terminate_behavior.2.2.2.2
      { projects := [], sbRows := [("s",
          { repoKey := "o/r", sandboxId := "ab", branch := "main",
            status := SandboxStatus.ready, createdAt := 0, lastActivityAt := 0,
            expiresAt := 10 })],
        destroyLog := [], alarmAt := none } "s"
      { repoKey := "o/r", sandboxId := "ab", branch := "main",
        status := SandboxStatus.ready, createdAt := 0, lastActivityAt := 0, expiresAt := 10 }
      (by decide))⟩

/-- C6 counterexample: terminate on a session already flagged expired
(whose host the sweep already destroyed once, as the destroy log
records) issues a second host-destroy call and deletes the row — it is
not the no-op the claim requires. -/
theorem terminate_on_expired_session_destroys_again :
    terminateSandboxSession
        { projects := [], sbRows := [("s",
            { repoKey := "o/r", sandboxId := "ab", branch := "main",
              status := SandboxStatus.expired, createdAt := 0, lastActivityAt := 0,
              expiresAt := 10 })],
          destroyLog := ["ab"], alarmAt := none } "s"
      = { projects := [], sbRows := [], destroyLog := ["ab", "ab"], alarmAt := none } ∧
    ¬ terminateSandboxSession
        { projects := [], sbRows := [("s",
            { repoKey := "o/r", sandboxId := "ab", branch := "main",
              status := SandboxStatus.expired, createdAt := 0, lastActivityAt := 0,
              expiresAt := 10 })],
          destroyLog := ["ab"], alarmAt := none } "s"
      = { projects := [], sbRows := [("s",
            { repoKey := "o/r", sandboxId := "ab", branch := "main",
              status := SandboxStatus.expired, createdAt := 0, lastActivityAt := 0,
              expiresAt := 10 })],
          destroyLog := ["ab"], alarmAt := none } := by
  refine ⟨by decide, by decide⟩

/- ============================================================
   C7 / C9 / C10 — bridge clients
   ============================================================ -/

theorem min_double_cap (a : Nat) : min (min a 30000 * 2) 30000 = min (a * 2) 30000 := by
  omega

theorem wbAfterFail_closed (n : Nat) :
    wbAfterFail (n + 1)
      = { status := WBStatus.disconnected, stopped := false,
          timer := some (min (1000 * 2 ^ n) 30000), delay := min (1000 * 2 ^ (n + 1)) 30000,
          wsLive := false, opened := n + 1, hasConfig := true, pingOn := false } := by
  induction n with
  | zero => decide
  | succ m ih =>
    show wbStep (wbStep (wbAfterFail (m + 1)) (WBEvent.timerFire true)) WBEvent.closeEvt = _
    rw [ih]
    simp only [wbStep, wbConnect, wbCleanup, wbScheduleReconnect]
    norm_num
    rw [pow_succ (2 : Nat) (m + 1)]
    generalize (2 : Nat) ^ (m + 1) = t
    omega

theorem ccAfterFail_closed (n : Nat) :
    ccAfterFail (n + 2)
      = { connState := CCConnState.disconnected, reconnectDelay := 1000,
          reconnectTimer := some 1000, shouldReconnect := true,
          socketsOpened := n + 2, attemptFromTimer := true } := by
  induction n with
  | zero => decide
  | succ m ih =>
    show ccFailedAttempt (ccTimerFire (ccAfterFail (m + 2))) = _
    rw [ih]
    rfl

/-- C7 (amended): after N consecutive connection failures the
WorkerBridge schedules min(1s · 2^(N−1), 30s) before the next attempt
and resets the delay to 1s on auth_ok. The CloudConnection schedules a
constant 1-second delay after every failure and its delay never grows:
on a failed attempt onerror fires before onclose and moves the state
to error, so the state-is-connecting guard in onclose never rejects
the doConnect promise and the exponential-backoff catch in the
reconnect timer callback never runs; onopen (trivially) resets the
delay to 1s. -/
theorem reconnect_backoff_delays :
    (∀ n : Nat, wbScheduledDelay (n + 1) = some (min (1000 * 2 ^ n) 30000)) ∧
    (∀ n : Nat, ccScheduledDelay (n + 1) = some 1000) ∧
    (∀ n : Nat, (ccAfterFail (n + 1)).reconnectDelay = 1000) ∧
    (∀ s : CCState, (ccOpen s).reconnectDelay = 1000) ∧
    (∀ s : WBState, (wbStep s WBEvent.msgAuthOk).delay = 1000) := by
  refine ⟨?_, ?_, ?_, fun s => rfl, fun s => rfl⟩
  · intro n
    unfold wbScheduledDelay
    rw [wbAfterFail_closed]
  · intro n
    cases n with
    | zero => decide
    | succ m =>
      unfold ccScheduledDelay
      rw [ccAfterFail_closed]
  · intro n
    cases n with
    | zero => decide
    | succ m =>
      rw [ccAfterFail_closed]

/-- C7 counterexample: after N = 1 consecutive failure, both bridges
schedule a 1000 ms delay before the next attempt, not
min(1s · 2^1, 30s) = 2000 ms as the claimed formula requires. -/
theorem backoff_delay_off_by_one :
    wbScheduledDelay 1 = some 1000 ∧ ccScheduledDelay 1 = some 1000 ∧
    min (1000 * 2 ^ 1) 30000 = 2000 ∧ ¬ (some (1000 : Nat) = some (2000 : Nat)) := by
  refine ⟨by decide, by decide, by decide, by decide⟩

/-- C9 (amended): connect() carries no idempotence guard — every call
sets shouldReconnect, moves the state to connecting and constructs a
fresh WebSocket, whatever the current state. -/
theorem ccConnect_always_opens_new_socket (s : CCState) :
    (ccConnect s).socketsOpened = s.socketsOpened + 1 ∧
    (ccConnect s).connState = CCConnState.connecting ∧
    (ccConnect s).shouldReconnect = true :=
  ⟨rfl, rfl, rfl⟩

/-- C9 counterexample: starting from an established connection (one
socket opened, state connected), a second connect() call opens a
second WebSocket instead of returning the existing connection. -/
theorem connect_while_connected_opens_second_socket :
    (ccOpen (ccConnect ccInit)).connState = CCConnState.connected ∧
    (ccOpen (ccConnect ccInit)).socketsOpened = 1 ∧
    (ccConnect (ccOpen (ccConnect ccInit))).socketsOpened = 2 ∧
    (ccConnect (ccOpen (ccConnect ccInit))).connState = CCConnState.connecting := by
  refine ⟨by decide, by decide, by decide, by decide⟩

theorem wbStep_stopped_step (s : WBState) (e : WBEvent) (hs : s.stopped = true)
    (he : e.isStart = false) :
    (wbStep s e).stopped = true ∧ (wbStep s e).opened = s.opened ∧
      ((wbStep s e).timer = s.timer ∨ (wbStep s e).timer = none) := by
  cases e with
  | startEvt ok => simp [WBEvent.isStart] at he
  | restartEvt ok => simp [WBEvent.isStart] at he
  | stopEvt => exact ⟨rfl, rfl, Or.inr rfl⟩
  | openEvt => exact ⟨hs, rfl, Or.inl rfl⟩
  | closeEvt =>
    simp only [wbStep]
    rw [if_pos (show ({ s with pingOn := false, wsLive := false } : WBState).stopped = true
      from hs)]
    exact ⟨hs, rfl, Or.inl rfl⟩
  | errorEvt => exact ⟨hs, rfl, Or.inl rfl⟩
  | msgAuthOk => exact ⟨hs, rfl, Or.inl rfl⟩
  | msgAuthError => exact ⟨rfl, rfl, Or.inl rfl⟩
  | msgAction => exact ⟨hs, rfl, Or.inl rfl⟩
  | msgQuery => exact ⟨hs, rfl, Or.inl rfl⟩
  | msgPong => exact ⟨hs, rfl, Or.inl rfl⟩
  | timerFire ok =>
    rcases ht : s.timer with _ | d
    · simp [wbStep, ht, hs]
    · simp only [wbStep, ht]
      unfold wbConnect
      rw [if_pos (Or.inr (show ({ s with timer := none } : WBState).stopped = true from hs))]
      exact ⟨hs, rfl, Or.inr rfl⟩

/-- C10: receiving auth_error sets the stopped flag; scheduleReconnect
and connect return immediately while stopped holds; and from any
stopped state, any event sequence that contains no start() or
restart() never opens another WebSocket, and never arms a new
reconnect timer (the timer only stays or is cleared). -/
theorem auth_error_stops_reconnection :
    (∀ s : WBState, (wbStep s WBEvent.msgAuthError).stopped = true) ∧
    (∀ s : WBState, s.stopped = true → wbScheduleReconnect s = s) ∧
    (∀ (s : WBState) (ok : Bool), s.stopped = true → wbConnect s ok = s) ∧
    (∀ (s : WBState) (evs : List WBEvent), s.stopped = true →
        (∀ e ∈ evs, e.isStart = false) →
        (wbRun s evs).stopped = true ∧ (wbRun s evs).opened = s.opened ∧
          ((wbRun s evs).timer = s.timer ∨ (wbRun s evs).timer = none)) := by
  refine ⟨fun s => rfl, ?_, ?_, ?_⟩
  · intro s hs
    unfold wbScheduleReconnect
    rw [if_pos (Or.inl hs)]
  · intro s ok hs
    unfold wbConnect
    rw [if_pos (Or.inr hs)]
  · intro s evs
    induction evs generalizing s with
    | nil => exact fun hs _ => ⟨hs, rfl, Or.inl rfl⟩
    | cons e es ih =>
      intro hs hall
      obtain ⟨h1, h2, h3⟩ := wbStep_stopped_step s e hs (hall e (by simp))
      obtain ⟨g1, g2, g3⟩ := ih (wbStep s e) h1 (fun e' he' => hall e' (by simp [he']))
      refine ⟨g1, ?_, ?_⟩
      · show (wbRun (wbStep s e) es).opened = s.opened
        rw [g2, h2]
      · show (wbRun (wbStep s e) es).timer = s.timer ∨ (wbRun (wbStep s e) es).timer = none
        rcases g3 with g3 | g3
        · rw [g3]
          exact h3
        · exact Or.inr g3

/-- Witness for C10 at concrete inputs: a started bridge that receives
auth_error is stopped; scheduleReconnect and connect then return it
unchanged; and running a close event, a timer fire and an error event
afterwards opens no socket and arms no timer. -/
theorem auth_error_stops_reconnection_witness :
    (wbStep (wbStep wbInit (WBEvent.startEvt true)) WBEvent.msgAuthError).stopped = true ∧
    wbScheduleReconnect (wbStep (wbStep wbInit (WBEvent.startEvt true)) WBEvent.msgAuthError)
      = wbStep (wbStep wbInit (WBEvent.startEvt true)) WBEvent.msgAuthError ∧
    wbConnect (wbStep (wbStep wbInit (WBEvent.startEvt true)) WBEvent.msgAuthError) true
      = wbStep (wbStep wbInit (WBEvent.startEvt true)) WBEvent.msgAuthError ∧
    ((wbRun (wbStep (wbStep wbInit (WBEvent.startEvt true)) WBEvent.msgAuthError)
        [WBEvent.closeEvt, WBEvent.timerFire true, WBEvent.errorEvt]).stopped = true ∧
      (wbRun (wbStep (wbStep wbInit (WBEvent.startEvt true)) WBEvent.msgAuthError)
          [WBEvent.closeEvt, WBEvent.timerFire true, WBEvent.errorEvt]).opened
        = (wbStep (wbStep wbInit (WBEvent.startEvt true)) WBEvent.msgAuthError).opened ∧
      ((wbRun (wbStep (wbStep wbInit (WBEvent.startEvt true)) WBEvent.msgAuthError)
          [WBEvent.closeEvt, WBEvent.timerFire true, WBEvent.errorEvt]).timer
        = (wbStep (wbStep wbInit (WBEvent.startEvt true)) WBEvent.msgAuthError).timer ∨
        (wbRun (wbStep (wbStep wbInit (WBEvent.startEvt true)) WBEvent.msgAuthError)
          [WBEvent.closeEvt, WBEvent.timerFire true, WBEvent.errorEvt]).timer = none)) :=
  ⟨auth_error_stops_reconnection.1 (wbStep wbInit (WBEvent.startEvt true)),
   auth_error_stops_reconnection.2.1 _ (by decide),
   auth_error_stops_reconnection.2.2.1 _ true (by decide),
   auth_error_stops_reconnection.2.2.2 _
     [WBEvent.closeEvt, WBEvent.timerFire true, WBEvent.errorEvt] (by decide) (by decide)⟩
